import Mathlib

/-!
# go-opentracing-zipkin: configuration factory, tracing filters, carrier, set-up

A shallow embedding of `config.go` and `zipkin.go`.

Conventions of the embedding

* A Go pointer that may be nil is an `Option`; dereferencing `none` is the
  run-time panic of Go, made explicit as `Outcome.panic`.
* A Go `(value, error)` result is `Outcome.ok value` or `Outcome.error err`.
* Go `error` values are `GoError`: the two concrete kinds `fmt.Errorf`
  produces (with and without the `%w` verb).
* Functions of the external libraries (zipkin-go, sarama, opentracing-go)
  are not part of the repository.  They are the fields of `Lib`, and every
  function that calls them returns, next to its result, the list of the calls
  it made, so that "the library was not called" and "the library was called
  with these arguments" can be stated.
* `int` and `time.Duration` are 64-bit signed integers: `Int` with an explicit
  wrap-around where the code multiplies.
* Names are those of the source; the field `Type` of `SamplerConfig` and
  `ReporterConfig` is written `Type_`, `Type` being a keyword.
-/

namespace Zipkin

/-! ## Go errors -/

/-- Go `error` values: `errorString` is what `fmt.Errorf` returns when the
format has no `%w`, `wrapError` what it returns when it has one. -/
inductive GoError where
  | errorString (s : String)
  | wrapError (msg : String) (err : GoError)
  deriving DecidableEq, Repr

namespace GoError

/-- The method `Error()` of the error interface. -/
def Error : GoError → String
  | errorString s => s
  | wrapError msg _ => msg

/-- What `errors.Unwrap` yields. -/
def Unwrap : GoError → Option GoError
  | errorString _ => none
  | wrapError _ err => some err

end GoError

/-- Result of a Go function of result type `(α, error)` that may also stop
with a run-time panic (nil pointer dereference, failed type assertion). -/
inductive Outcome (α : Type) where
  | ok (a : α)
  | error (err : GoError)
  | panic
  deriving DecidableEq, Repr

/-! ## Machine integers -/

/-- Two's complement wrap-around of an integer into the `int64` range. -/
def wrapInt64 (x : Int) : Int :=
  (x + 2 ^ 63) % 2 ^ 64 - 2 ^ 63

/-- The constant `time.Second`, in nanoseconds. -/
def timeSecond : Int := 1000000000

/-- The Go expression `time.Duration(n) * time.Second` on `int64`. -/
def secondsToDuration (n : Int) : Int :=
  wrapInt64 (wrapInt64 n * timeSecond)

/-- A `float64`, kept as its 64 bits: no arithmetic is done on it here, it is
only handed to the sampler constructors of the library. -/
structure Float64 where
  bits : Nat
  deriving DecidableEq, Repr

/-! ## Plugin constants (config.go 31-41) -/

def NeverSampler : String := "never"
def AlwaysSampler : String := "always"
def ModuloSampler : String := "modulo"
def BoundarySampler : String := "boundary"
def CountingSampler : String := "counting"

def HTTPReporter : String := "http"
def KafkaReporter : String := "kafka"
def NoopReporter : String := "noop"

/-! ## Configuration structures (config.go 43-50, 158-298) -/

/-- The struct `ModuloSamplerConfig` (yaml block `const`); `Mod` is a `uint64`. -/
structure ModuloSamplerConfig where
  Mod : Nat
  deriving DecidableEq, Repr

/-- The struct `BoundarySamplerConfig` (yaml block `mix`); `Salt` is an `int64`. -/
structure BoundarySamplerConfig where
  Rate : Float64
  Salt : Int
  deriving DecidableEq, Repr

/-- The struct `CountingSamplerConfig` (yaml block `counting`). -/
structure CountingSamplerConfig where
  Rate : Float64
  deriving DecidableEq, Repr

/-- The struct `SamplerConfig`: the type tag and the three variant blocks, each
a pointer that is nil when the block is not configured. -/
structure SamplerConfig where
  Type_ : String
  Modulo : Option ModuloSamplerConfig
  Boundary : Option BoundarySamplerConfig
  Counting : Option CountingSamplerConfig
  deriving DecidableEq, Repr

/-- The struct `HTTPReporterConfig`; the four numeric fields are of type `int`. -/
structure HTTPReporterConfig where
  Url : String
  TimeoutSeconds : Int
  BatchIntervalSeconds : Int
  BatchSize : Int
  MaxBacklog : Int
  deriving DecidableEq, Repr

/-- The struct `KafkaProducerFlushConfig`: three `int` thresholds and the
`time.Duration` `Frequency`. -/
structure KafkaProducerFlushConfig where
  Bytes : Int
  Messages : Int
  Frequency : Int
  MaxMessages : Int
  deriving DecidableEq, Repr

/-- The struct `KafkaReporterConfig`: the broker list (a nil slice is the empty
list) and the optional flush block. -/
structure KafkaReporterConfig where
  Urls : List String
  ProducerFlushConfig : Option KafkaProducerFlushConfig
  deriving DecidableEq, Repr

/-- The struct `NoopReporterConfig`, without fields. -/
structure NoopReporterConfig where
  deriving DecidableEq, Repr

/-- The struct `ReporterConfig`: the type tag and the two variant blocks. -/
structure ReporterConfig where
  Type_ : String
  HTTP : Option HTTPReporterConfig
  Kafka : Option KafkaReporterConfig
  deriving DecidableEq, Repr

/-- The struct `Config` (config.go 44-50). -/
structure Config where
  ServiceName : String
  HostPort : String
  TraceID128 : Bool
  Sampler : Option SamplerConfig
  Reporter : Option ReporterConfig
  deriving DecidableEq, Repr

/-! ## Handles and calls of the external libraries -/

/-- A `zipkin.Sampler` value of the library. -/
structure ZipkinSampler where
  id : Nat
  deriving DecidableEq, Repr

/-- A `*model.Endpoint` of the library (it may be the nil endpoint). -/
structure ZipkinEndpoint where
  id : Nat
  deriving DecidableEq, Repr

/-- A `reporter.Reporter` of the library. -/
structure ZipkinReporter where
  id : Nat
  deriving DecidableEq, Repr

/-- A `sarama.AsyncProducer`. -/
structure AsyncProducer where
  id : Nat
  deriving DecidableEq, Repr

/-- A `*zipkin.Tracer`. -/
structure ZipkinTracer where
  id : Nat
  deriving DecidableEq, Repr

/-- The options of `reporter/http` that `newReporterOption` builds:
`http.Timeout(d)`, `http.BatchInterval(d)`, `http.BatchSize(n)` and
`http.MaxBacklog(n)`; durations are in nanoseconds. -/
inductive HTTPReporterOption where
  | Timeout (d : Int)
  | BatchInterval (d : Int)
  | BatchSize (n : Int)
  | MaxBacklog (n : Int)
  deriving DecidableEq, Repr

/-- The anonymous struct `sarama.Config.Producer.Flush`. -/
structure ProducerFlush where
  Bytes : Int
  Messages : Int
  Frequency : Int
  MaxMessages : Int
  deriving DecidableEq, Repr

/-- A `*sarama.Config`: the flush block of the producer, which the code
overwrites, and a token for all the settings it leaves alone. -/
structure SaramaConfig where
  Flush : ProducerFlush
  others : Nat
  deriving DecidableEq, Repr

/-- One call of a library function, with its arguments. -/
inductive LibCall where
  | NewEndpoint (serviceName hostPort : String)
  | NewModuloSampler (mod : Nat)
  | NewBoundarySampler (rate : Float64) (salt : Int)
  | NewCountingSampler (rate : Float64)
  | httpNewReporter (url : String) (opts : List HTTPReporterOption)
  | saramaNewConfig
  | NewAsyncProducer (addrs : List String) (conf : SaramaConfig)
  | kafkaNewReporter (addrs : List String) (producer : Option AsyncProducer)
  | NewNoopReporter
  | NewTracer (rep : ZipkinReporter) (endpoint : ZipkinEndpoint) (sampler : ZipkinSampler)
      (traceID128 : Bool)
  deriving DecidableEq, Repr

/-- A log of library calls, oldest first. -/
abbrev Log := List LibCall

/-- The library functions the configuration factory calls, as functions of
their arguments.  `NeverSample` and `AlwaysSample` are package variables of
zipkin-go, `NewModuloSampler`, `http.NewReporter` and `NewNoopReporter`
return no error. -/
structure Lib where
  NewEndpoint : String → String → Except GoError ZipkinEndpoint
  NeverSample : ZipkinSampler
  AlwaysSample : ZipkinSampler
  NewModuloSampler : Nat → ZipkinSampler
  NewBoundarySampler : Float64 → Int → Except GoError ZipkinSampler
  NewCountingSampler : Float64 → Except GoError ZipkinSampler
  httpNewReporter : String → List HTTPReporterOption → ZipkinReporter
  saramaNewConfig : SaramaConfig
  NewAsyncProducer : List String → SaramaConfig → Except GoError AsyncProducer
  kafkaNewReporter : List String → Option AsyncProducer → Except GoError ZipkinReporter
  NewNoopReporter : ZipkinReporter
  NewTracer : ZipkinReporter → ZipkinEndpoint → ZipkinSampler → Bool → Except GoError ZipkinTracer

/-! ## config.go -/

/-- The function `samplerInitErr` (config.go 150-152). -/
def samplerInitErr (sampler : String) (err : GoError) : GoError :=
  .wrapError ("trpc-opentracing-zipkin: init " ++ sampler ++ " failed: " ++ err.Error) err

/-- The function `invalidConfigErr` (config.go 154-156). -/
def invalidConfigErr (para : String) : GoError :=
  .errorString ("trpc-opentracing-zipkin: param [" ++ para ++ "] invalid")

/-- The method `checkConfig` (config.go 92-100); `none` is the nil error. -/
def Config.checkConfig (c : Config) : Option GoError :=
  if c.Sampler.isNone then some (invalidConfigErr "sampler")
  else if c.Reporter.isNone then some (invalidConfigErr "reporter")
  else none

/-- The method `newZipkinSampler` (config.go 102-126), with the library calls
it makes.  The arguments of a constructor are evaluated before it is called, so
an absent variant block panics before the library is reached. -/
def Config.newZipkinSampler (lib : Lib) (c : Config) : Outcome ZipkinSampler × Log :=
  match c.Sampler with
  | none => (.panic, [])
  | some s =>
    if s.Type_ = NeverSampler then (.ok lib.NeverSample, [])
    else if s.Type_ = AlwaysSampler then (.ok lib.AlwaysSample, [])
    else if s.Type_ = ModuloSampler then
      match s.Modulo with
      | none => (.panic, [])
      | some m => (.ok (lib.NewModuloSampler m.Mod), [.NewModuloSampler m.Mod])
    else if s.Type_ = BoundarySampler then
      match s.Boundary with
      | none => (.panic, [])
      | some b =>
        match lib.NewBoundarySampler b.Rate b.Salt with
        | .error err =>
          (.error (samplerInitErr BoundarySampler err), [.NewBoundarySampler b.Rate b.Salt])
        | .ok sampler => (.ok sampler, [.NewBoundarySampler b.Rate b.Salt])
    else if s.Type_ = CountingSampler then
      match s.Counting with
      | none => (.panic, [])
      | some k =>
        match lib.NewCountingSampler k.Rate with
        | .error err =>
          (.error (samplerInitErr CountingSampler err), [.NewCountingSampler k.Rate])
        | .ok sampler => (.ok sampler, [.NewCountingSampler k.Rate])
    else (.error (invalidConfigErr "sampler.type"), [])

/-- The method `newReporterOption` (config.go 230-245). -/
def HTTPReporterConfig.newReporterOption (c : HTTPReporterConfig) : List HTTPReporterOption :=
  let opts : List HTTPReporterOption := []
  let opts := if c.TimeoutSeconds > 0 then
    opts ++ [.Timeout (secondsToDuration c.TimeoutSeconds)] else opts
  let opts := if c.BatchIntervalSeconds > 0 then
    opts ++ [.BatchInterval (secondsToDuration c.BatchIntervalSeconds)] else opts
  let opts := if c.BatchSize > 0 then opts ++ [.BatchSize c.BatchSize] else opts
  let opts := if c.MaxBacklog > 0 then opts ++ [.MaxBacklog c.MaxBacklog] else opts
  opts

/-- The method `newReporter` of `*HTTPReporterConfig` (config.go 223-228), with
the library calls it makes; the receiver may be a nil pointer, and reading
`c.Url` then panics. -/
def HTTPReporterConfig.newReporter (lib : Lib) (c : Option HTTPReporterConfig) :
    Outcome ZipkinReporter × Log :=
  match c with
  | none => (.panic, [])
  | some c =>
    if c.Url = "" then (.error (invalidConfigErr "reporter.http.url"), [])
    else
      (.ok (lib.httpNewReporter c.Url c.newReporterOption),
        [.httpNewReporter c.Url c.newReporterOption])

/-- The method `newReporter` of `*KafkaReporterConfig` (config.go 270-294), with
the library calls it makes; the receiver may be a nil pointer, and reading
`c.Urls` then panics. -/
def KafkaReporterConfig.newReporter (lib : Lib) (c : Option KafkaReporterConfig) :
    Outcome ZipkinReporter × Log :=
  match c with
  | none => (.panic, [])
  | some c =>
    if c.Urls.length = 0 then (.error (invalidConfigErr "reporter.kafka.url"), [])
    else
      match c.ProducerFlushConfig with
      | none =>
        match lib.kafkaNewReporter c.Urls none with
        | .error err => (.error err, [.kafkaNewReporter c.Urls none])
        | .ok rep => (.ok rep, [.kafkaNewReporter c.Urls none])
      | some f =>
        let conf := lib.saramaNewConfig
        let conf := { conf with Flush := {
          Bytes := f.Bytes
          Messages := f.MaxMessages
          Frequency := f.Frequency
          MaxMessages := f.MaxMessages } }
        match lib.NewAsyncProducer c.Urls conf with
        | .error err => (.error err, [.saramaNewConfig, .NewAsyncProducer c.Urls conf])
        | .ok producer =>
          match lib.kafkaNewReporter c.Urls (some producer) with
          | .error err =>
            (.error err, [.saramaNewConfig, .NewAsyncProducer c.Urls conf,
              .kafkaNewReporter c.Urls (some producer)])
          | .ok rep =>
            (.ok rep, [.saramaNewConfig, .NewAsyncProducer c.Urls conf,
              .kafkaNewReporter c.Urls (some producer)])

/-- The method `newReporter` of `*NoopReporterConfig` (config.go 300-302). -/
def NoopReporterConfig.newReporter (lib : Lib) (_c : NoopReporterConfig) :
    Outcome ZipkinReporter × Log :=
  (.ok lib.NewNoopReporter, [.NewNoopReporter])

/-- A non-nil value of the interface `reporterNewer` (config.go 206-208): a
dynamic type together with a pointer of that type, which may itself be nil. -/
inductive reporterNewer where
  | http (c : Option HTTPReporterConfig)
  | kafka (c : Option KafkaReporterConfig)
  | noop (c : NoopReporterConfig)
  deriving DecidableEq, Repr

/-- Dynamic dispatch of `newReporter` on a `reporterNewer`. -/
def reporterNewer.newReporter (lib : Lib) (r : reporterNewer) : Outcome ZipkinReporter × Log :=
  match r with
  | .http c => HTTPReporterConfig.newReporter lib c
  | .kafka c => KafkaReporterConfig.newReporter lib c
  | .noop c => NoopReporterConfig.newReporter lib c

/-- The method `reporterConfig` (config.go 193-204); `none` is the nil
interface of the default branch.  `return c.HTTP` converts the pointer to the
interface, which is not nil even when the pointer is. -/
def ReporterConfig.reporterConfig (c : ReporterConfig) : Option reporterNewer :=
  if c.Type_ = HTTPReporter then some (.http c.HTTP)
  else if c.Type_ = KafkaReporter then some (.kafka c.Kafka)
  else if c.Type_ = NoopReporter then some (.noop {})
  else none

/-- The method `NewZipkinTracer` (config.go 63-90), with the library calls it
makes, in order. -/
def Config.NewZipkinTracer (lib : Lib) (c : Config) : Outcome ZipkinTracer × Log :=
  match c.checkConfig with
  | some err => (.error err, [])
  | none =>
    match lib.NewEndpoint c.ServiceName c.HostPort with
    | .error err => (.error err, [.NewEndpoint c.ServiceName c.HostPort])
    | .ok endpoint =>
      match c.newZipkinSampler lib with
      | (.panic, l₁) => (.panic, .NewEndpoint c.ServiceName c.HostPort :: l₁)
      | (.error err, l₁) => (.error err, .NewEndpoint c.ServiceName c.HostPort :: l₁)
      | (.ok sampler, l₁) =>
        match c.Reporter with
        | none => (.panic, .NewEndpoint c.ServiceName c.HostPort :: l₁)
        | some r =>
          match r.reporterConfig with
          | none =>
            (.error (invalidConfigErr "reporter.type"),
              .NewEndpoint c.ServiceName c.HostPort :: l₁)
          | some reporterConf =>
            match reporterConf.newReporter lib with
            | (.panic, l₂) => (.panic, .NewEndpoint c.ServiceName c.HostPort :: l₁ ++ l₂)
            | (.error err, l₂) =>
              (.error err, .NewEndpoint c.ServiceName c.HostPort :: l₁ ++ l₂)
            | (.ok varReporter, l₂) =>
              match lib.NewTracer varReporter endpoint sampler c.TraceID128 with
              | .error err =>
                (.error err, .NewEndpoint c.ServiceName c.HostPort :: l₁ ++ l₂ ++
                  [.NewTracer varReporter endpoint sampler c.TraceID128])
              | .ok tracer =>
                (.ok tracer, .NewEndpoint c.ServiceName c.HostPort :: l₁ ++ l₂ ++
                  [.NewTracer varReporter endpoint sampler c.TraceID128])

/-- The method `withDefault` (config.go 128-136); `globalServer` is
`trpc.GlobalConfig().Server.Server` and `localIP` is
`trpc.GlobalConfig().Global.LocalIP`. -/
def Config.withDefault (globalServer localIP : String) (c : Config) : Config :=
  let c := if c.ServiceName = "" then { c with ServiceName := globalServer } else c
  let c := if c.HostPort = "" then { c with HostPort := localIP } else c
  c

/-- The method `withServiceName` (config.go 138-142). -/
def Config.withServiceName (c : Config) (name : String) : Config :=
  if name ≠ "" then { c with ServiceName := name } else c

/-- The method `withHostPort` (config.go 144-148): `port` is a `uint16`, and
`fmt.Sprintf("%s:%d", ip, port)` writes it in decimal. -/
def Config.withHostPort (c : Config) (ip : String) (port : Fin 65536) : Config :=
  if ip ≠ "" then { c with HostPort := ip ++ ":" ++ Nat.repr port.val } else c

/-! ## zipkin.go: the two filters

The filters run inside the trpc-go framework and on top of opentracing-go.
What they read from the call context is a record `Ctx`; the tracer operations
are the fields of `OpenTracing`; every observable action of a filter (log line,
tracer call, span operation, invocation of the inner handler) is an `Event`,
and a filter returns the list of its events, oldest first, next to its result.

The objects the framework hands over are taken as the framework builds them:
a `*trpcHTTP.Header` stored in the context carries the request it serves (as
in the test case "http" of `TestServerFilter`), and a request head of dynamic
type `*trpcHTTP.ClientReqHeader` is a non-nil pointer. -/

/-- An `interface{}` payload: a request or a response. -/
structure GoValue where
  id : Nat
  deriving DecidableEq, Repr

/-- A non-nil `opentracing.Tracer`. -/
structure Tracer where
  id : Nat
  deriving DecidableEq, Repr

/-- An `opentracing.SpanContext` with its dynamic type: the `SpanContext` of
zipkin-go-opentracing, or the span context of another tracer implementation
(the default global tracer of opentracing-go is its `NoopTracer`). -/
inductive SpanContext where
  | zipkin (id : Nat)
  | other (id : Nat)
  deriving DecidableEq, Repr

/-- An `opentracing.Span`; `Context` is what its method `Context()` returns. -/
structure Span where
  id : Nat
  Context : SpanContext
  deriving DecidableEq, Repr

/-- The type `codec.MetaData`, a `map[string][]byte`: keys with their byte
values. -/
abbrev MetaData := List (String × List Nat)

/-- The type `http.Header`, a `map[string][]string`. -/
abbrev HTTPHeader := List (String × List String)

/-- The carrier handed to `Extract` and `Inject`. -/
inductive Carrier where
  | HTTPHeadersCarrier (h : HTTPHeader)
  | metadataTextMap (md : MetaData)
  deriving DecidableEq, Repr

/-- A `*http.Request`, of which only the header map is read. -/
structure HTTPRequest where
  Header : HTTPHeader
  deriving DecidableEq, Repr

/-- A `*trpcHTTP.Header` as stored under `trpcHTTP.ContextKeyHeader`. -/
structure Header where
  Request : HTTPRequest
  deriving DecidableEq, Repr

/-- A `*trpcHTTP.ClientReqHeader`; its header map may be nil. -/
structure ClientReqHeader where
  Header : Option HTTPHeader
  deriving DecidableEq, Repr

/-- What `msg.ClientReqHead()` returns: nil, a `*trpcHTTP.ClientReqHeader`, or a
head of another protocol. -/
inductive ReqHead where
  | absent
  | http (header : ClientReqHeader)
  | other (id : Nat)
  deriving DecidableEq, Repr

/-- The part of a `codec.Msg` the filters use; a nil metadata map is `none`. -/
structure Msg where
  CalleeServiceName : String
  ServerRPCName : String
  ClientRPCName : String
  ServerMetaData : Option MetaData
  ClientMetaData : Option MetaData
  ClientReqHead : ReqHead
  deriving DecidableEq, Repr

/-- The part of a `context.Context` the filters use: the message stored in it
(if any), the value under `trpcHTTP.ContextKeyHeader` when it is a
`*trpcHTTP.Header`, and the span stored by `opentracing.ContextWithSpan`. -/
structure Ctx where
  msg : Option Msg
  header : Option Header
  span : Option Span
  deriving DecidableEq, Repr

/-- The function `codec.Message`: the message of the context, or a fresh empty
message when the context holds none. -/
def codecMessage (ctx : Ctx) : Msg :=
  match ctx.msg with
  | some m => m
  | none =>
    { CalleeServiceName := "", ServerRPCName := "", ClientRPCName := ""
      ServerMetaData := none, ClientMetaData := none, ClientReqHead := .absent }

/-- The function `opentracing.ContextWithSpan`. -/
def ContextWithSpan (ctx : Ctx) (span : Span) : Ctx :=
  { ctx with span := some span }

/-- The function `opentracing.SpanFromContext`. -/
def SpanFromContext (ctx : Ctx) : Option Span :=
  ctx.span

/-- The options the filters pass to `StartSpan`. -/
inductive StartSpanOption where
  | RPCServerOption (parent : Option SpanContext)
  | ChildOf (parent : Option SpanContext)
  | SpanKindRPCClient
  deriving DecidableEq, Repr

/-- The tracer side of opentracing-go, as functions of the arguments: the
global tracer, the sentinel `ErrSpanContextNotFound`, and the tracer methods
`Extract` (span context and error, either of which may be nil), `StartSpan` and
`Inject` (error, and the carrier as the injection leaves it).  The format is
`opentracing.HTTPHeaders` in every call. -/
structure OpenTracing where
  GlobalTracer : Tracer
  ErrSpanContextNotFound : GoError
  Extract : Tracer → Carrier → Option SpanContext × Option GoError
  StartSpan : Tracer → String → List StartSpanOption → Span
  Inject : Tracer → SpanContext → Carrier → Option GoError × Carrier

/-- The struct `zipkinPlugin` (zipkin.go 43-46): the tracer registered for a
service name, `none` when the map has no entry (or a nil one). -/
structure zipkinPlugin where
  tracers : String → Option Tracer

/-- The observable actions of a filter. -/
inductive Event where
  | Debugf (format : String)
  | Errorf (format : String) (err : GoError)
  | Extract (tracer : Tracer) (carrier : Carrier)
  | StartSpan (tracer : Tracer) (operationName : String) (opts : List StartSpanOption)
  | Inject (tracer : Tracer) (sc : SpanContext) (carrier : Carrier)
  | WithClientMetaData (md : MetaData)
  | handler (ctx : Ctx) (req : GoValue)
  | SetErrorTag (span : Span)
  | LogFields (span : Span) (fields : List (String × String))
  | Finish (span : Span)
  deriving DecidableEq, Repr

/-- A `filter.ServerHandleFunc`: response and error, either of which may be
nil. -/
abbrev ServerHandleFunc := Ctx → GoValue → Option GoValue × Option GoError

/-- A `filter.ClientHandleFunc`. -/
abbrev ClientHandleFunc := Ctx → GoValue → GoValue → Option GoError

/-- The events of the error branch `if err != nil` of both filters: the error
tag, then the two log fields. -/
def errorEvents (span : Span) (err : Option GoError) : List Event :=
  match err with
  | none => []
  | some e => [.SetErrorTag span, .LogFields span [("event", "error"), ("message", e.Error)]]

/-- The function returned by `ServerFilter z` (zipkin.go 115-160). -/
def ServerFilter (ot : OpenTracing) (z : zipkinPlugin) (ctx : Ctx) (req : GoValue)
    (handler : ServerHandleFunc) : (Option GoValue × Option GoError) × List Event :=
  let msg := codecMessage ctx
  let tracer := match z.tracers msg.CalleeServiceName with
    | some t => t
    | none => ot.GlobalTracer
  -- the carrier: http headers, or the metadata of the trpc protocol
  let (debug, carrier) : Event × Carrier := match ctx.header with
    | some httpHeader => (.Debugf "headers: %+v", .HTTPHeadersCarrier httpHeader.Request.Header)
    | none =>
      (.Debugf "metadata: %+v ", .metadataTextMap (match msg.ServerMetaData with
        | some md => md
        | none => []))
  let (parentSpanContext, err) := ot.Extract tracer carrier
  let extractLog : List Event := match err with
    | some e =>
      if e ≠ ot.ErrSpanContextNotFound then
        [.Errorf "trpc-opentracing-zipkin: failed to parse trace information: %v" e]
      else []
    | none => []
  let serverSpan := ot.StartSpan tracer msg.ServerRPCName [.RPCServerOption parentSpanContext]
  let ctx := ContextWithSpan ctx serverSpan
  let (rsp, err) := handler ctx req
  ((rsp, err),
    [debug, .Extract tracer carrier] ++ extractLog ++
    [.StartSpan tracer msg.ServerRPCName [.RPCServerOption parentSpanContext],
     .handler ctx req] ++
    errorEvents serverSpan err ++ [.Finish serverSpan])

/-- The method `msg.WithClientMetaData`, seen from the context: it changes the
message stored in the context; on the fresh message of a context without one it
leaves no trace. -/
def withClientMetaData (ctx : Ctx) (md : MetaData) : Ctx :=
  match ctx.msg with
  | some m => { ctx with msg := some { m with ClientMetaData := some md } }
  | none => ctx

/-- A write to the header map of the request head of the context's message:
the assignment `header.Header = http.Header{}`, and what `Inject` writes into
that map through the carrier. -/
def withClientReqHeader (ctx : Ctx) (h : HTTPHeader) : Ctx :=
  match ctx.msg with
  | some m => { ctx with msg := some { m with ClientReqHead := .http { Header := some h } } }
  | none => ctx

/-- The function returned by `ClientFilter z` (zipkin.go 163-219).  The result
is `Outcome.ok ()` for a nil error and `Outcome.error e` for the error `e`.
The argument of the last `log.Debugf` is the type assertion
`clientSpan.Context().(zipkin.SpanContext)`, written without the comma-ok
form: it panics when the span context has another dynamic type. -/
def ClientFilter (ot : OpenTracing) (z : zipkinPlugin) (ctx : Ctx) (req rsp : GoValue)
    (handler : ClientHandleFunc) : Outcome Unit × List Event :=
  let parentSpanCtx : Option SpanContext := match SpanFromContext ctx with
    | some parent => some parent.Context
    | none => none
  let opts : List StartSpanOption := [.ChildOf parentSpanCtx, .SpanKindRPCClient]
  let msg := codecMessage ctx
  let tracer := match z.tracers msg.CalleeServiceName with
    | some t => t
    | none => ot.GlobalTracer
  let clientSpan := ot.StartSpan tracer msg.ClientRPCName opts
  -- the carrier, and `md` (nil on the http path)
  let (carrier, md, ctx) : Carrier × Option MetaData × Ctx := match msg.ClientReqHead with
    | .http header =>
      let h : HTTPHeader := match header.Header with
        | some h => h
        | none => []
      (.HTTPHeadersCarrier h, none, withClientReqHeader ctx h)
    | _ =>
      let md : MetaData := match msg.ClientMetaData with
        | some m => m
        | none => []
      (.metadataTextMap md, some md, ctx)
  let (injectErr, carrier') := ot.Inject tracer clientSpan.Context carrier
  let injectLog : List Event := match injectErr with
    | some e => [.Errorf "trpc-opentracing-zipkin: failed to serialize trace information: %v" e]
    | none => []
  -- `Inject` has written into the map the carrier shares with the request
  -- head, or with `md`
  let (ctx, md) : Ctx × Option MetaData := match carrier', md with
    | .HTTPHeadersCarrier h, none => (withClientReqHeader ctx h, none)
    | .metadataTextMap md', some _ => (ctx, some md')
    | _, md => (ctx, md)
  let (ctx, mdLog) : Ctx × List Event := match md with
    | some md => (withClientMetaData ctx md, [.WithClientMetaData md])
    | none => (ctx, [])
  let ctx := ContextWithSpan ctx clientSpan
  let before : List Event :=
    [.StartSpan tracer msg.ClientRPCName opts, .Debugf "carrier: %+v",
     .Inject tracer clientSpan.Context carrier] ++ injectLog ++ mdLog
  match clientSpan.Context with
  | .other _ => (.panic, before)
  | .zipkin _ =>
    let err := handler ctx req rsp
    ((match err with
      | some e => .error e
      | none => .ok ()),
      before ++ [.Debugf "span: %+v", .handler ctx req] ++
      errorEvents clientSpan err ++ [.Finish clientSpan])

/-! ## zipkin.go: the metadata carrier

`type metadataTextMap codec.MetaData` is a Go map from string to byte slice.
A map is kept as the list of its entries, and a nil map is `none`.  The order
of the list carries no meaning for the map; for `ForeachKey` it is the order
in which that run of `range` visits the entries, which Go leaves unspecified:
statements about the entries a loop visits are therefore made for every
ordering of the list. -/

/-- A Go `string` value that is converted to and from `[]byte`: kept as its
bytes, since the bytes of a map entry need not be the encoding of any text.
Keys are only compared and handed on; they stay `String`. -/
structure GoString where
  bytes : List Nat
  deriving DecidableEq, Repr

/-- The conversion `[]byte(s)`. -/
def GoString.toBytes (s : GoString) : List Nat :=
  s.bytes

/-- The conversion `string(b)`. -/
def GoString.ofBytes (b : List Nat) : GoString :=
  { bytes := b }

/-- The type `metadataTextMap` (zipkin.go 97); `none` is the nil map. -/
abbrev metadataTextMap := Option MetaData

/-- The entries of a map; a nil map has none. -/
def metadataTextMap.entries (m : metadataTextMap) : List (String × List Nat) :=
  match m with
  | some md => md
  | none => []

/-- The keys of a map. -/
def metadataTextMap.keys (m : metadataTextMap) : List String :=
  (metadataTextMap.entries m).map Prod.fst

/-- The index expression `m[key]` with its presence flag: the value of the
entry for `key`, `none` when the map has no such entry. -/
def metadataTextMap.get (m : metadataTextMap) (key : String) : Option (List Nat) :=
  (metadataTextMap.entries m).lookup key

/-- The method `Set` (zipkin.go 100-102): the assignment `m[key] = []byte(val)`
replaces the entry of `key` or adds one, and panics on a nil map.  The result
is the map after the call. -/
def metadataTextMap.Set (m : metadataTextMap) (key : String) (val : GoString) :
    Outcome metadataTextMap :=
  match m with
  | none => .panic
  | some md => .ok (some ((key, val.toBytes) :: md.filter (fun e => e.1 ≠ key)))

/-- The loop `for k, v := range m` of `ForeachKey` over the entries in the
order the run visits them: the first error of the callback, and the callback
invocations made, in order. -/
def foreachEntries (callback : String → GoString → Option GoError) :
    List (String × List Nat) → Option GoError × List (String × GoString)
  | [] => (none, [])
  | (k, v) :: rest =>
    match callback k (GoString.ofBytes v) with
    | some err => (some err, [(k, GoString.ofBytes v)])
    | none =>
      ((foreachEntries callback rest).1,
        (k, GoString.ofBytes v) :: (foreachEntries callback rest).2)

/-- What a call of `ForeachKey` leaves behind: the error returned (`none` is
nil), the callback invocations made, in order, and the map after the call. -/
structure ForeachKeyResult where
  err : Option GoError
  calls : List (String × GoString)
  after : metadataTextMap

/-- The method `ForeachKey` (zipkin.go 105-112), for a callback whose result
depends only on its arguments. -/
def metadataTextMap.ForeachKey (m : metadataTextMap)
    (callback : String → GoString → Option GoError) : ForeachKeyResult :=
  { err := (foreachEntries callback (metadataTextMap.entries m)).1
    calls := (foreachEntries callback (metadataTextMap.entries m)).2
    after := m }

/-! ## zipkin.go: the plugin set-up -/

/-- An entry of `trpc.GlobalConfig().Server.Service`: the three fields `Setup`
reads; the port is a `uint16`. -/
structure ServiceConfig where
  Name : String
  IP : String
  Port : Fin 65536
  deriving DecidableEq, Repr

/-- What `Setup` and `withDefault` read of `trpc.GlobalConfig()`:
`Server.Server`, `Global.LocalIP` and `Server.Service`. -/
structure GlobalConfig where
  Server : String
  LocalIP : String
  Service : List ServiceConfig
  deriving DecidableEq, Repr

/-- The method `NewOpenTracingTracer` (config.go 53-60); `Wrap` is
`zipkinOpentracing.Wrap`. -/
def Config.NewOpenTracingTracer (lib : Lib) (Wrap : ZipkinTracer → Tracer) (c : Config) :
    Outcome Tracer × Log :=
  match c.NewZipkinTracer lib with
  | (.ok zipkinTracer, l) => (.ok (Wrap zipkinTracer), l)
  | (.error err, l) => (.error err, l)
  | (.panic, l) => (.panic, l)

/-- The observable steps of `Setup`: each call `cfg.NewOpenTracingTracer()`
with the value of `cfg` at that moment, the fatal log line, the registration of
the global tracer, the assignment `z.tracers[name] = tracer`, and the
registration of the two filters. -/
inductive SetupEvent where
  | NewOpenTracingTracer (cfg : Config)
  | Fatalf (format : String) (err : GoError)
  | SetGlobalTracer (tracer : Tracer)
  | SetTracer (name : String) (tracer : Tracer)
  | Register (name : String)
  deriving DecidableEq, Repr

/-- The loop `for _, s := range trpc.GlobalConfig().Server.Service` of `Setup`
(zipkin.go 79-91), from the configuration `cfg` and the map `tracers` it starts
with: the map it ends with, or the error or panic that ends it early, and its
steps.  The one variable `cfg` is overwritten in every round. -/
def setupServices (lib : Lib) (Wrap : ZipkinTracer → Tracer) :
    List ServiceConfig → Config → (String → Option Tracer) →
      Outcome (String → Option Tracer) × List SetupEvent
  | [], _, tracers => (.ok tracers, [])
  | s :: rest, cfg, tracers =>
    let cfg := cfg.withServiceName s.Name
    let cfg := cfg.withHostPort s.IP s.Port
    match (cfg.NewOpenTracingTracer lib Wrap).1 with
    | .panic => (.panic, [.NewOpenTracingTracer cfg])
    | .error err =>
      (.error err, [.NewOpenTracingTracer cfg, .Fatalf "unable to create tracer: %+v\n" err])
    | .ok tracer =>
      ((setupServices lib Wrap rest cfg
          (fun name => if name = s.Name then some tracer else tracers name)).1,
        .NewOpenTracingTracer cfg :: .SetTracer s.Name tracer ::
          (setupServices lib Wrap rest cfg
            (fun name => if name = s.Name then some tracer else tracers name)).2)

/-- The method `Setup` (zipkin.go 59-95).  `decode` is what `decoder.Decode`
leaves in `cfg`, or its error; `g` is `trpc.GlobalConfig()`.  The result is the
plugin after a return of nil, or the error returned.  `log.Fatalf` is taken as a
log line after which the code returns the error. -/
def zipkinPlugin.Setup (lib : Lib) (Wrap : ZipkinTracer → Tracer) (g : GlobalConfig)
    (decode : Except GoError Config) (name : String) : Outcome zipkinPlugin × List SetupEvent :=
  match decode with
  | .error err => (.error err, [])
  | .ok cfg =>
    let cfg := cfg.withDefault g.Server g.LocalIP
    match (cfg.NewOpenTracingTracer lib Wrap).1 with
    | .panic => (.panic, [.NewOpenTracingTracer cfg])
    | .error err =>
      (.error err,
        [.NewOpenTracingTracer cfg, .Fatalf "unable to create zipkin tracer: %+v\n" err])
    | .ok tracer =>
      match setupServices lib Wrap g.Service cfg (fun _ => none) with
      | (.panic, evs) => (.panic, .NewOpenTracingTracer cfg :: .SetGlobalTracer tracer :: evs)
      | (.error err, evs) =>
        (.error err, .NewOpenTracingTracer cfg :: .SetGlobalTracer tracer :: evs)
      | (.ok tracers, evs) =>
        (.ok { tracers := tracers },
          .NewOpenTracingTracer cfg :: .SetGlobalTracer tracer :: evs ++ [.Register name])

/-! ## A sample library, for evaluating the code on concrete inputs -/

/-- A library in which every constructor succeeds, except the two rate
samplers on a rate whose bits are those of a number above 1 (here: the bits of
2.0), as zipkin-go rejects rates outside [0, 1], and the endpoint constructor
on the host-port "a:b:c", which `net.SplitHostPort` rejects. -/
def sampleLib : Lib where
  NewEndpoint := fun _ hostPort =>
    if hostPort = "a:b:c" then .error (.errorString "address a:b:c: too many colons in address")
    else .ok ⟨0⟩
  NeverSample := ⟨0⟩
  AlwaysSample := ⟨1⟩
  NewModuloSampler := fun _ => ⟨2⟩
  NewBoundarySampler := fun r _ =>
    if r.bits = 0x4000000000000000 then .error (.errorString "rate invalid") else .ok ⟨3⟩
  NewCountingSampler := fun r =>
    if r.bits = 0x4000000000000000 then .error (.errorString "rate invalid") else .ok ⟨4⟩
  httpNewReporter := fun _ _ => ⟨0⟩
  saramaNewConfig := ⟨⟨0, 0, 0, 0⟩, 0⟩
  NewAsyncProducer := fun _ _ => .ok ⟨0⟩
  kafkaNewReporter := fun _ _ => .ok ⟨1⟩
  NewNoopReporter := ⟨2⟩
  NewTracer := fun _ _ _ _ => .ok ⟨0⟩

/-- The configuration of the test case "Normal" of `TestConfig_NewZipkinTracer`:
the never-sampler and an http reporter with every option set to 1. -/
def normalConfig : Config :=
  { ServiceName := "", HostPort := "", TraceID128 := false
    Sampler := some { Type_ := "never", Modulo := none, Boundary := none, Counting := none }
    Reporter := some { Type_ := "http", Kafka := none
                       HTTP := some { Url := "url", TimeoutSeconds := 1, BatchIntervalSeconds := 1,
                                      BatchSize := 1, MaxBacklog := 1 } } }

/-- A configuration with the sampler tag "modulo" and no `const` block. -/
def moduloWithoutBlock : Config :=
  { ServiceName := "", HostPort := "", TraceID128 := false
    Sampler := some { Type_ := "modulo", Modulo := none, Boundary := none, Counting := none }
    Reporter := some { Type_ := "noop", HTTP := none, Kafka := none } }

/-- A configuration with the reporter tag "http" and no `http` block. -/
def httpWithoutBlock : Config :=
  { ServiceName := "", HostPort := "", TraceID128 := false
    Sampler := some { Type_ := "never", Modulo := none, Boundary := none, Counting := none }
    Reporter := some { Type_ := "http", HTTP := none, Kafka := none } }

/-- A configuration with a valid sampler and a valid reporter, and a host-port
the endpoint constructor rejects. -/
def badHostPort : Config :=
  { ServiceName := "svc", HostPort := "a:b:c", TraceID128 := false
    Sampler := some { Type_ := "never", Modulo := none, Boundary := none, Counting := none }
    Reporter := some { Type_ := "noop", HTTP := none, Kafka := none } }

/-- The configuration of the test case "CountingSampler": rate 2.0. -/
def countingRateTwo : Config :=
  { ServiceName := "", HostPort := "", TraceID128 := false
    Sampler := some { Type_ := "counting", Modulo := none, Boundary := none,
                      Counting := some { Rate := ⟨0x4000000000000000⟩ } }
    Reporter := some { Type_ := "", HTTP := none, Kafka := none } }

/-- The configuration of the test case "type err": a reporter block with an
empty type tag. -/
def emptyReporterType : Config :=
  { ServiceName := "", HostPort := "", TraceID128 := false
    Sampler := some { Type_ := "never", Modulo := none, Boundary := none, Counting := none }
    Reporter := some { Type_ := "", HTTP := none, Kafka := none } }

/-- An http block whose timeout, in seconds, no longer fits an `int64` count of
nanoseconds. -/
def hugeTimeout : HTTPReporterConfig :=
  { Url := "url", TimeoutSeconds := 9223372037, BatchIntervalSeconds := 0,
    BatchSize := 0, MaxBacklog := 0 }

/-- The kafka block of the test case "NormalKafka": `messages: 100`, the
other thresholds unset. -/
def kafkaMessages100 : KafkaReporterConfig :=
  { Urls := ["url"]
    ProducerFlushConfig := some { Bytes := 0, Messages := 100, Frequency := 0, MaxMessages := 0 } }

/-- The configuration of the test case "NormalKafka": the never-sampler and the
kafka block above. -/
def normalKafkaConfig : Config :=
  { ServiceName := "", HostPort := "", TraceID128 := false
    Sampler := some { Type_ := "never", Modulo := none, Boundary := none, Counting := none }
    Reporter := some { Type_ := "kafka", HTTP := none, Kafka := some kafkaMessages100 } }

/-- The sample library with the producer constructor of `Test_KafkaNewReporter`,
which always fails. -/
def failingProducerLib : Lib :=
  { sampleLib with
    NewAsyncProducer := fun _ _ => .error (.errorString "new async producer err") }

/-! ### The http reporter of the library

Behaviour of zipkin-go `reporter/http`, not code of this repository: the
reporter starts from the defaults that the comment on `HTTPReporterConfig`
(config.go 211-214) lists, and each option overwrites its own setting. -/

/-- The four settings of the http reporter; durations in nanoseconds. -/
structure HTTPReporterSettings where
  timeout : Int
  batchInterval : Int
  batchSize : Int
  maxBacklog : Int
  deriving DecidableEq, Repr

/-- The library defaults: `defaultTimeout = time.Second * 5`,
`defaultBatchInterval = time.Second * 1`, `defaultBatchSize = 100`,
`defaultMaxBacklog = 1000`. -/
def defaultHTTPReporterSettings : HTTPReporterSettings :=
  { timeout := timeSecond * 5, batchInterval := timeSecond * 1, batchSize := 100,
    maxBacklog := 1000 }

/-- An option sets its own setting. -/
def HTTPReporterOption.apply (o : HTTPReporterOption) (r : HTTPReporterSettings) :
    HTTPReporterSettings :=
  match o with
  | .Timeout d => { r with timeout := d }
  | .BatchInterval d => { r with batchInterval := d }
  | .BatchSize n => { r with batchSize := n }
  | .MaxBacklog n => { r with maxBacklog := n }

/-- The settings of a reporter built with the options `opts`, applied in
order to the defaults. -/
def httpReporterSettings (opts : List HTTPReporterOption) : HTTPReporterSettings :=
  opts.foldl (fun r o => o.apply r) defaultHTTPReporterSettings

/-! ### When construction succeeds: the stages, in the words of the specification -/

/-- The sampler `smp` is the one a valid sampler block `s` selects: one of the
five type tags, with variant parameters the constructor accepts. -/
def samplerBuilds (lib : Lib) (s : SamplerConfig) (smp : ZipkinSampler) : Prop :=
  (s.Type_ = "never" ∧ smp = lib.NeverSample) ∨
  (s.Type_ = "always" ∧ smp = lib.AlwaysSample) ∨
  (s.Type_ = "modulo" ∧ ∃ m, s.Modulo = some m ∧ smp = lib.NewModuloSampler m.Mod) ∨
  (s.Type_ = "boundary" ∧ ∃ b, s.Boundary = some b ∧
    lib.NewBoundarySampler b.Rate b.Salt = .ok smp) ∨
  (s.Type_ = "counting" ∧ ∃ k, s.Counting = some k ∧ lib.NewCountingSampler k.Rate = .ok smp)

/-- The `sarama.Config` a kafka block with the flush block `f` asks the
producer to be built with: the configuration of `sarama.NewConfig()` with its
flush block replaced as in config.go 278-288 (where `Messages`, too, is filled
from `MaxMessages`; that assignment is the subject of C7). -/
def kafkaProducerConfig (lib : Lib) (f : KafkaProducerFlushConfig) : SaramaConfig :=
  { Flush := { Bytes := f.Bytes, Messages := f.MaxMessages, Frequency := f.Frequency,
               MaxMessages := f.MaxMessages }
    others := lib.saramaNewConfig.others }

/-- The kafka reporter `rep` is successfully built for the block `k`, in terms
of the library constructors alone: the broker list is not empty and, without a
flush block, `kafka.NewReporter` on the brokers returns `rep`; with a flush
block, `sarama.NewAsyncProducer` returns a producer for the brokers and the
configuration of that block, and `kafka.NewReporter` returns `rep` for the
brokers and that producer. -/
def kafkaReporterBuilds (lib : Lib) (k : KafkaReporterConfig) (rep : ZipkinReporter) : Prop :=
  k.Urls ≠ [] ∧
  ((k.ProducerFlushConfig = none ∧ lib.kafkaNewReporter k.Urls none = .ok rep) ∨
   (∃ f producer, k.ProducerFlushConfig = some f ∧
      lib.NewAsyncProducer k.Urls (kafkaProducerConfig lib f) = .ok producer ∧
      lib.kafkaNewReporter k.Urls (some producer) = .ok rep))

/-- The reporter `rep` is the one a valid reporter block `r` selects: one of
the three type tags, with a non-empty URL (http), or a non-empty broker list
and a successfully built producer and reporter (kafka). -/
def reporterBuilds (lib : Lib) (r : ReporterConfig) (rep : ZipkinReporter) : Prop :=
  (r.Type_ = "http" ∧ ∃ h, r.HTTP = some h ∧ h.Url ≠ "" ∧
    rep = lib.httpNewReporter h.Url h.newReporterOption) ∨
  (r.Type_ = "kafka" ∧ ∃ k, r.Kafka = some k ∧ kafkaReporterBuilds lib k rep) ∨
  (r.Type_ = "noop" ∧ rep = lib.NewNoopReporter)

/-- The tracer `t` is composed from a built endpoint, a valid sampler block and
a valid reporter block. -/
def tracerBuilds (lib : Lib) (c : Config) (t : ZipkinTracer) : Prop :=
  ∃ s r ep smp rep, c.Sampler = some s ∧ c.Reporter = some r ∧
    lib.NewEndpoint c.ServiceName c.HostPort = .ok ep ∧
    samplerBuilds lib s smp ∧ reporterBuilds lib r rep ∧
    lib.NewTracer rep ep smp c.TraceID128 = .ok t

/-- The variant block that the sampler tag selects is present. -/
def SamplerConfig.blockPresent (s : SamplerConfig) : Bool :=
  (s.Type_ != "modulo" || s.Modulo.isSome) &&
  (s.Type_ != "boundary" || s.Boundary.isSome) &&
  (s.Type_ != "counting" || s.Counting.isSome)

/-- The variant block that the reporter tag selects is present. -/
def ReporterConfig.blockPresent (r : ReporterConfig) : Bool :=
  (r.Type_ != "http" || r.HTTP.isSome) &&
  (r.Type_ != "kafka" || r.Kafka.isSome)

/-- Every variant block that a type tag of the configuration selects is
present. -/
def Config.blocksPresent (c : Config) : Bool :=
  (match c.Sampler with
   | none => true
   | some s => s.blockPresent) &&
  (match c.Reporter with
   | none => true
   | some r => r.blockPresent)

/-! ### Reading the events of a filter -/

/-- The invocations of the inner handler among the events, with the context
and the request each one received. -/
def handlerCalls (evs : List Event) : List (Ctx × GoValue) :=
  evs.filterMap fun e =>
    match e with
    | .handler ctx req => some (ctx, req)
    | _ => none

/-- The spans on which the error tag has been set (`ext.Error.Set(span, true)`),
one entry for each time it was set. -/
def erroredSpans (evs : List Event) : List Span :=
  evs.filterMap fun e =>
    match e with
    | .SetErrorTag span => some span
    | _ => none

/-! ### Sample inputs for the filters -/

/-- Behaviour of opentracing-go before any tracer is registered: the global
tracer is the `NoopTracer`, whose spans carry a span context that is not a
`zipkin.SpanContext`, whose `Extract` finds no context and whose `Inject` does
nothing. -/
def noopOpenTracing : OpenTracing where
  GlobalTracer := ⟨0⟩
  ErrSpanContextNotFound := .errorString "opentracing: SpanContext not found in Extract carrier"
  Extract := fun _ _ =>
    (none, some (.errorString "opentracing: SpanContext not found in Extract carrier"))
  StartSpan := fun _ _ _ => ⟨0, .other 0⟩
  Inject := fun _ _ carrier => (none, carrier)

/-- A plugin with no tracer registered, as `&zipkinPlugin{}`. -/
def emptyPlugin : zipkinPlugin where
  tracers := fun _ => none

/-- The context `context.Background()`. -/
def backgroundCtx : Ctx :=
  { msg := none, header := none, span := none }

/-- The handler of the test cases "err" and "http" of `TestServerFilter`: no
response, the error "test". -/
def failingServerHandler : ServerHandleFunc :=
  fun _ _ => (none, some (.errorString "test"))

/-- The context of the test case "http" of `TestServerFilter`: a header value
whose request has an empty header map. -/
def httpCtx : Ctx :=
  { msg := none, header := some { Request := { Header := [] } }, span := none }

/-- The handler of the test case "normal" of `TestClientFilter`. -/
def okClientHandler : ClientHandleFunc :=
  fun _ _ _ => none

/-! ### Reading the life of a span from the events -/

/-- The spans started among the events: the span each `StartSpan` call
returned. -/
def startedSpans (ot : OpenTracing) (evs : List Event) : List Span :=
  evs.filterMap fun e =>
    match e with
    | .StartSpan tracer operationName opts => some (ot.StartSpan tracer operationName opts)
    | _ => none

/-- The operations on a span among the events: setting the error tag, logging
fields, finishing. -/
def spanOps (evs : List Event) : List Event :=
  evs.filter fun e =>
    match e with
    | .SetErrorTag _ => true
    | .LogFields _ _ => true
    | .Finish _ => true
    | _ => false

/-! ### Sample inputs for the carrier -/

/-- The map `m1` of `Test_metadataTextMap_ForeachKey`: the key "1" with the
byte of the character 1. -/
def sampleTextMap : metadataTextMap :=
  some [("1", [49])]

/-- The callback of the test case "error_test": it fails on every entry. -/
def failingCallback : String → GoString → Option GoError :=
  fun _ _ => some (.errorString "test")

/-- The callback of the test case "normal_test": it never fails. -/
def okCallback : String → GoString → Option GoError :=
  fun _ _ => none

/-! ### The set-up, in the words of the specification -/

/-- The configurations with which `NewOpenTracingTracer` was called, in
order. -/
def tracerConfigs (evs : List SetupEvent) : List Config :=
  evs.filterMap fun e =>
    match e with
    | .NewOpenTracingTracer cfg => some cfg
    | _ => none

/-- The name of the last service of the list with a non-empty name, `dflt` if
there is none. -/
def lastServiceName (services : List ServiceConfig) (dflt : String) : String :=
  match (services.filter (fun s => s.Name ≠ "")).getLast? with
  | some s => s.Name
  | none => dflt

/-- The ip:port of the last service of the list with a non-empty IP, `dflt` if
there is none. -/
def lastHostPort (services : List ServiceConfig) (dflt : String) : String :=
  match (services.filter (fun s => s.IP ≠ "")).getLast? with
  | some s => s.IP ++ ":" ++ Nat.repr s.Port.val
  | none => dflt

/-- The configuration the specification gives the tracer of the i-th declared
service (counted from 0): the defaulted configuration `cfg` with the service
name of the last of the services 0..i that has a name, and the host-port of
the last of them that has an IP. -/
def setupRoundConfig (cfg : Config) (services : List ServiceConfig) (i : Nat) : Config :=
  { cfg with
    ServiceName := lastServiceName (services.take (i + 1)) cfg.ServiceName
    HostPort := lastHostPort (services.take (i + 1)) cfg.HostPort }

/-- The tracer of the i-th declared service can be built: the library builds a
tracer from the configuration the specification gives that service. -/
def roundBuilds (lib : Lib) (Wrap : ZipkinTracer → Tracer) (cfg : Config)
    (services : List ServiceConfig) (i : Nat) : Prop :=
  ∃ t, ((setupRoundConfig cfg services i).NewOpenTracingTracer lib Wrap).1 = .ok t

/-- The function `zipkinOpentracing.Wrap` of the sample library. -/
def sampleWrap : ZipkinTracer → Tracer :=
  fun t => { id := t.id }

/-- A host with three declared services, the second one without an IP and the
third one without a name. -/
def sampleGlobalConfig : GlobalConfig :=
  { Server := "app.server", LocalIP := "10.0.0.9"
    Service := [{ Name := "svcA", IP := "10.0.0.1", Port := 8000 },
                { Name := "svcB", IP := "", Port := 9000 },
                { Name := "", IP := "10.0.0.3", Port := 7000 }] }

/-! ## Theorems: configuration factory -/

/-- The message of `invalidConfigErr`, spelled out. -/
theorem invalidConfigErr_Error (para : String) :
    (invalidConfigErr para).Error = "trpc-opentracing-zipkin: param [" ++ para ++ "] invalid" :=
  rfl

/-- C1: `NewZipkinTracer` validates presence first and names what is missing.
With the sampler absent it returns the error "param [sampler] invalid" whatever
the other fields are; with the sampler present and the reporter absent it
returns "param [reporter] invalid"; in both cases no library function has been
called (the call log is empty); `checkConfig` returns no error exactly when
both are present. -/
theorem C1_presence_validated_first (lib : Lib) (c : Config) :
    (c.Sampler = none →
      c.NewZipkinTracer lib = (.error (invalidConfigErr "sampler"), [])) ∧
    (c.Sampler ≠ none → c.Reporter = none →
      c.NewZipkinTracer lib = (.error (invalidConfigErr "reporter"), [])) ∧
    (c.checkConfig = none ↔ (c.Sampler ≠ none ∧ c.Reporter ≠ none)) ∧
    (invalidConfigErr "sampler").Error = "trpc-opentracing-zipkin: param [sampler] invalid" ∧
    (invalidConfigErr "reporter").Error = "trpc-opentracing-zipkin: param [reporter] invalid" := by
  refine ⟨?_, ?_, ?_, by decide, by decide⟩
  · intro hs
    simp [Config.NewZipkinTracer, Config.checkConfig, hs]
  · intro hs hr
    cases hsv : c.Sampler with
    | none => exact absurd hsv hs
    | some s => simp [Config.NewZipkinTracer, Config.checkConfig, hsv, hr]
  · cases hsv : c.Sampler <;> cases hrv : c.Reporter <;>
      simp [Config.checkConfig, hsv, hrv]

/-- C1 at a concrete input: an empty configuration, and one with only a
sampler block. -/
theorem C1_presence_validated_first_witness :
    (Config.NewZipkinTracer sampleLib ⟨"", "", false, none, none⟩ =
      (.error (invalidConfigErr "sampler"), [])) ∧
    (Config.NewZipkinTracer sampleLib ⟨"", "", false, some ⟨"", none, none, none⟩, none⟩ =
      (.error (invalidConfigErr "reporter"), [])) :=
  ⟨(C1_presence_validated_first sampleLib ⟨"", "", false, none, none⟩).1 rfl,
   (C1_presence_validated_first sampleLib
      ⟨"", "", false, some ⟨"", none, none, none⟩, none⟩).2.1 (by decide) rfl⟩

/-- When `newZipkinSampler` returns a sampler. -/
theorem newZipkinSampler_ok_iff (lib : Lib) (c : Config) (s : SamplerConfig)
    (hs : c.Sampler = some s) (smp : ZipkinSampler) :
    (c.newZipkinSampler lib).1 = .ok smp ↔ samplerBuilds lib s smp := by
  unfold Config.newZipkinSampler samplerBuilds
  simp only [hs, NeverSampler, AlwaysSampler, ModuloSampler, BoundarySampler, CountingSampler]
  by_cases h1 : s.Type_ = "never"
  · simp [h1, eq_comm]
  by_cases h2 : s.Type_ = "always"
  · simp [h2, eq_comm]
  by_cases h3 : s.Type_ = "modulo"
  · cases hm : s.Modulo <;> simp [h3, hm, eq_comm]
  by_cases h4 : s.Type_ = "boundary"
  · cases hb : s.Boundary with
    | none => simp [h4, hb]
    | some b => cases hx : lib.NewBoundarySampler b.Rate b.Salt <;> simp [h4, hb, hx]
  by_cases h5 : s.Type_ = "counting"
  · cases hb : s.Counting with
    | none => simp [h5, hb]
    | some b => cases hx : lib.NewCountingSampler b.Rate <;> simp [h5, hb, hx]
  simp [h1, h2, h3, h4, h5]

/-- With its variant block present, `newZipkinSampler` does not panic. -/
theorem newZipkinSampler_no_panic (lib : Lib) (c : Config) (s : SamplerConfig)
    (hs : c.Sampler = some s) (hb : s.blockPresent = true) :
    (c.newZipkinSampler lib).1 ≠ .panic := by
  unfold Config.newZipkinSampler
  simp only [hs, NeverSampler, AlwaysSampler, ModuloSampler, BoundarySampler, CountingSampler]
  simp only [SamplerConfig.blockPresent, Bool.and_eq_true, Bool.or_eq_true, bne_iff_ne, ne_eq,
    Option.isSome_iff_exists] at hb
  obtain ⟨⟨hm, hbd⟩, hc⟩ := hb
  by_cases h1 : s.Type_ = "never"
  · simp [h1]
  by_cases h2 : s.Type_ = "always"
  · simp [h2]
  by_cases h3 : s.Type_ = "modulo"
  · obtain ⟨m, hm⟩ := hm.resolve_left (not_not.mpr h3)
    simp [h3, hm]
  by_cases h4 : s.Type_ = "boundary"
  · obtain ⟨b, hb⟩ := hbd.resolve_left (not_not.mpr h4)
    cases hx : lib.NewBoundarySampler b.Rate b.Salt <;> simp [h4, hb, hx]
  by_cases h5 : s.Type_ = "counting"
  · obtain ⟨b, hb⟩ := hc.resolve_left (not_not.mpr h5)
    cases hx : lib.NewCountingSampler b.Rate <;> simp [h5, hb, hx]
  simp [h1, h2, h3, h4, h5]

/-- The kafka `newReporter` on a present block never panics. -/
theorem kafka_newReporter_no_panic (lib : Lib) (k : KafkaReporterConfig) :
    (KafkaReporterConfig.newReporter lib (some k)).1 ≠ .panic := by
  unfold KafkaReporterConfig.newReporter
  by_cases hu : k.Urls.length = 0
  · simp [hu]
  · cases hf : k.ProducerFlushConfig with
    | none => cases hr : lib.kafkaNewReporter k.Urls none <;> simp [hu, hf, hr]
    | some f =>
      simp only [hu, hf, if_false]
      split
      · simp
      · split <;> simp

/-- When the kafka `newReporter` returns a reporter: exactly when the library
constructors succeed on a non-empty broker list. -/
theorem kafka_newReporter_ok_iff (lib : Lib) (k : KafkaReporterConfig) (rep : ZipkinReporter) :
    (KafkaReporterConfig.newReporter lib (some k)).1 = .ok rep ↔ kafkaReporterBuilds lib k rep := by
  unfold KafkaReporterConfig.newReporter kafkaReporterBuilds kafkaProducerConfig
  by_cases hu : k.Urls = []
  · simp [hu]
  · have hlen : ¬ k.Urls.length = 0 := by simpa using hu
    cases hf : k.ProducerFlushConfig with
    | none => cases hr : lib.kafkaNewReporter k.Urls none <;> simp [hu, hf, hr]
    | some f =>
      simp only [hlen, hf, if_false, ne_eq, hu, not_false_eq_true, true_and, reduceCtorEq,
        false_and, false_or, Option.some.injEq, exists_and_left, exists_eq_left']
      cases hp : lib.NewAsyncProducer k.Urls
          { Flush := { Bytes := f.Bytes, Messages := f.MaxMessages, Frequency := f.Frequency,
                       MaxMessages := f.MaxMessages },
            others := lib.saramaNewConfig.others } with
      | error err => simp
      | ok producer =>
        cases hr : lib.kafkaNewReporter k.Urls (some producer) <;> simp [hr]

/-- When the reporter selected by the type tag is built. -/
theorem newReporter_ok_iff (lib : Lib) (r : ReporterConfig) (rep : ZipkinReporter) :
    (∃ rc, r.reporterConfig = some rc ∧ (rc.newReporter lib).1 = .ok rep) ↔
      reporterBuilds lib r rep := by
  unfold ReporterConfig.reporterConfig reporterBuilds
  simp only [HTTPReporter, KafkaReporter, NoopReporter]
  by_cases h1 : r.Type_ = "http"
  · cases hh : r.HTTP with
    | none => simp [h1, hh, reporterNewer.newReporter, HTTPReporterConfig.newReporter]
    | some h =>
      by_cases hu : h.Url = ""
      · simp [h1, hh, hu, reporterNewer.newReporter, HTTPReporterConfig.newReporter]
      · simp only [h1, hh, hu, reporterNewer.newReporter, HTTPReporterConfig.newReporter,
          if_true, if_false, Option.some.injEq, exists_eq_left', Outcome.ok.injEq]
        simp [hu, eq_comm]
  by_cases h2 : r.Type_ = "kafka"
  · cases hk : r.Kafka with
    | none => simp [h2, hk, reporterNewer.newReporter, KafkaReporterConfig.newReporter]
    | some k =>
      simp [h2, hk, reporterNewer.newReporter, kafka_newReporter_ok_iff]
  by_cases h3 : r.Type_ = "noop"
  · simp [h3, reporterNewer.newReporter, NoopReporterConfig.newReporter, eq_comm]
  simp [h1, h2, h3]

/-- With its variant block present, the selected `newReporter` does not
panic. -/
theorem newReporter_no_panic (lib : Lib) (r : ReporterConfig) (rc : reporterNewer)
    (hb : r.blockPresent = true) (hrc : r.reporterConfig = some rc) :
    (rc.newReporter lib).1 ≠ .panic := by
  unfold ReporterConfig.reporterConfig at hrc
  simp only [HTTPReporter, KafkaReporter, NoopReporter] at hrc
  simp only [ReporterConfig.blockPresent, Bool.and_eq_true, Bool.or_eq_true, bne_iff_ne, ne_eq,
    Option.isSome_iff_exists] at hb
  obtain ⟨hh, hk⟩ := hb
  by_cases h1 : r.Type_ = "http"
  · obtain ⟨h, hh⟩ := hh.resolve_left (not_not.mpr h1)
    simp [h1] at hrc
    subst hrc
    by_cases hu : h.Url = "" <;>
      simp [hh, hu, reporterNewer.newReporter, HTTPReporterConfig.newReporter]
  by_cases h2 : r.Type_ = "kafka"
  · obtain ⟨k, hk⟩ := hk.resolve_left (not_not.mpr h2)
    simp [h2] at hrc
    subst hrc
    simpa [hk, reporterNewer.newReporter] using kafka_newReporter_no_panic lib k
  by_cases h3 : r.Type_ = "noop"
  · simp [h3] at hrc
    subst hrc
    simp [reporterNewer.newReporter, NoopReporterConfig.newReporter]
  simp [h1, h2, h3] at hrc

/-- When `NewZipkinTracer` returns a tracer. -/
theorem NewZipkinTracer_ok_iff (lib : Lib) (c : Config) (t : ZipkinTracer) :
    (c.NewZipkinTracer lib).1 = .ok t ↔ tracerBuilds lib c t := by
  constructor
  · intro h
    unfold Config.NewZipkinTracer Config.checkConfig at h
    cases hs : c.Sampler with
    | none => simp [hs] at h
    | some s =>
    cases hr : c.Reporter with
    | none => simp [hs, hr] at h
    | some r =>
    cases he : lib.NewEndpoint c.ServiceName c.HostPort with
    | error e => simp [hs, hr, he] at h
    | ok ep =>
    rcases hso : c.newZipkinSampler lib with ⟨o, l₁⟩
    cases o with
    | panic => simp [hs, hr, he, hso] at h
    | error e => simp [hs, hr, he, hso] at h
    | ok smp =>
    cases hrc : r.reporterConfig with
    | none => simp [hs, hr, he, hso, hrc] at h
    | some rc =>
    rcases hro : rc.newReporter lib with ⟨o₂, l₂⟩
    cases o₂ with
    | panic => simp [hs, hr, he, hso, hrc, hro] at h
    | error e => simp [hs, hr, he, hso, hrc, hro] at h
    | ok rep =>
    cases ht : lib.NewTracer rep ep smp c.TraceID128 with
    | error e => simp [hs, hr, he, hso, hrc, hro, ht] at h
    | ok t' =>
      simp [hs, hr, he, hso, hrc, hro, ht] at h
      subst h
      exact ⟨s, r, ep, smp, rep, hs, hr, he,
        (newZipkinSampler_ok_iff lib c s hs smp).mp (by rw [hso]),
        (newReporter_ok_iff lib r rep).mp ⟨rc, hrc, by rw [hro]⟩, ht⟩
  · rintro ⟨s, r, ep, smp, rep, hs, hr, he, hsb, hrb, ht⟩
    have h1 := (newZipkinSampler_ok_iff lib c s hs smp).mpr hsb
    obtain ⟨rc, hrc, h2⟩ := (newReporter_ok_iff lib r rep).mpr hrb
    unfold Config.NewZipkinTracer Config.checkConfig
    rcases hso : c.newZipkinSampler lib with ⟨o, l₁⟩
    rcases hro : rc.newReporter lib with ⟨o₂, l₂⟩
    rw [hso] at h1
    rw [hro] at h2
    simp only at h1 h2
    subst h1 h2
    simp [hs, hr, he, hrc, hro, ht]

/-- With the selected variant blocks present, `NewZipkinTracer` does not
panic. -/
theorem NewZipkinTracer_no_panic (lib : Lib) (c : Config) (hb : c.blocksPresent = true) :
    (c.NewZipkinTracer lib).1 ≠ .panic := by
  unfold Config.NewZipkinTracer Config.checkConfig
  cases hs : c.Sampler with
  | none => simp
  | some s =>
  cases hr : c.Reporter with
  | none => simp
  | some r =>
  simp only [Config.blocksPresent, hs, hr, Bool.and_eq_true] at hb
  cases he : lib.NewEndpoint c.ServiceName c.HostPort with
  | error e => simp
  | ok ep =>
  have hsp := newZipkinSampler_no_panic lib c s hs hb.1
  rcases hso : c.newZipkinSampler lib with ⟨o, l₁⟩
  rw [hso] at hsp
  cases o with
  | panic => simp at hsp
  | error e => simp
  | ok smp =>
  cases hrc : r.reporterConfig with
  | none => simp [hrc]
  | some rc =>
  have hrp := newReporter_no_panic lib r rc hb.2 hrc
  rcases hro : rc.newReporter lib with ⟨o₂, l₂⟩
  rw [hro] at hrp
  cases o₂ with
  | panic => simp at hrp
  | error e => simp [hrc, hro]
  | ok rep => cases ht : lib.NewTracer rep ep smp c.TraceID128 <;> simp [hrc, hro, ht]

/-- C2, as stated, fails on the code.  A recognised tag whose variant block is
absent ("modulo" without `const`, "http" without `http`) makes
`NewZipkinTracer` panic on a nil pointer: it returns no error.  And a
configuration whose sampler and reporter are both present and valid returns no
tracer when the endpoint cannot be built from the host-port. -/
theorem C2_counterexample :
    ((moduloWithoutBlock.NewZipkinTracer sampleLib).1 = .panic ∧
      ¬ ∃ e, (moduloWithoutBlock.NewZipkinTracer sampleLib).1 = .error e) ∧
    ((httpWithoutBlock.NewZipkinTracer sampleLib).1 = .panic ∧
      ¬ ∃ e, (httpWithoutBlock.NewZipkinTracer sampleLib).1 = .error e) ∧
    (badHostPort.Sampler = some ⟨"never", none, none, none⟩ ∧
      samplerBuilds sampleLib ⟨"never", none, none, none⟩ sampleLib.NeverSample ∧
      badHostPort.Reporter = some ⟨"noop", none, none⟩ ∧
      reporterBuilds sampleLib ⟨"noop", none, none⟩ sampleLib.NewNoopReporter ∧
      (badHostPort.NewZipkinTracer sampleLib).1 =
        .error (.errorString "address a:b:c: too many colons in address") ∧
      ¬ ∃ t, (badHostPort.NewZipkinTracer sampleLib).1 = .ok t) := by
  have h₁ : (moduloWithoutBlock.NewZipkinTracer sampleLib).1 = .panic := by decide
  have h₂ : (httpWithoutBlock.NewZipkinTracer sampleLib).1 = .panic := by decide
  have h₃ : (badHostPort.NewZipkinTracer sampleLib).1 =
      .error (.errorString "address a:b:c: too many colons in address") := by decide
  refine ⟨⟨h₁, ?_⟩, ⟨h₂, ?_⟩, rfl, Or.inl ⟨rfl, rfl⟩, rfl, Or.inr (Or.inr ⟨rfl, rfl⟩), h₃, ?_⟩
  · rintro ⟨e, he⟩
    rw [h₁] at he
    cases he
  · rintro ⟨e, he⟩
    rw [h₂] at he
    cases he
  · rintro ⟨t, ht⟩
    rw [h₃] at ht
    cases ht

/-- C2, amended: for every configuration in which the variant block selected
by each type tag is present, `NewZipkinTracer` returns a tracer exactly when
sampler and reporter are both present, the endpoint is built from service name
and host-port, the sampler block is valid (one of the five tags, parameters
accepted by the constructor), the reporter block is valid (one of the three
tags, non-empty URL for http, non-empty broker list and a built reporter for
kafka) and the library composes the tracer from them; in every other such case
it returns an error and no tracer. -/
theorem C2_tracer_iff_all_stages_valid (lib : Lib) (c : Config)
    (hb : c.blocksPresent = true) :
    (∀ t, (c.NewZipkinTracer lib).1 = .ok t ↔ tracerBuilds lib c t) ∧
    ((¬ ∃ t, tracerBuilds lib c t) → ∃ e, (c.NewZipkinTracer lib).1 = .error e) := by
  refine ⟨fun t => NewZipkinTracer_ok_iff lib c t, fun hno => ?_⟩
  have hp := NewZipkinTracer_no_panic lib c hb
  cases ho : (c.NewZipkinTracer lib).1 with
  | panic => exact absurd ho hp
  | error e => exact ⟨e, rfl⟩
  | ok t => exact absurd ⟨t, (NewZipkinTracer_ok_iff lib c t).mp ho⟩ hno

/-- C2, amended, at the configurations of the test cases "Normal" (http) and
"NormalKafka": with the sample library, whose producer and reporter
constructors succeed, the kafka configuration gets its tracer; with a library
whose producer constructor fails it gets an error and no tracer. -/
theorem C2_tracer_iff_all_stages_valid_witness :
    normalConfig.blocksPresent = true ∧
    ((∀ t, (normalConfig.NewZipkinTracer sampleLib).1 = .ok t ↔
        tracerBuilds sampleLib normalConfig t) ∧
      ((¬ ∃ t, tracerBuilds sampleLib normalConfig t) →
        ∃ e, (normalConfig.NewZipkinTracer sampleLib).1 = .error e)) ∧
    normalKafkaConfig.blocksPresent = true ∧
    (normalKafkaConfig.NewZipkinTracer sampleLib).1 = .ok ⟨0⟩ ∧
    (∃ e, (normalKafkaConfig.NewZipkinTracer failingProducerLib).1 = .error e) := by
  refine ⟨by decide, C2_tracer_iff_all_stages_valid sampleLib normalConfig (by decide),
    by decide, ?_, ?_⟩
  · refine ((C2_tracer_iff_all_stages_valid sampleLib normalKafkaConfig (by decide)).1 ⟨0⟩).mpr ?_
    refine ⟨_, _, ⟨0⟩, sampleLib.NeverSample, ⟨1⟩, rfl, rfl, rfl, Or.inl ⟨rfl, rfl⟩, ?_, rfl⟩
    refine Or.inr (Or.inl ⟨rfl, kafkaMessages100, rfl, by decide, Or.inr ?_⟩)
    exact ⟨_, ⟨0⟩, rfl, rfl, rfl⟩
  · refine (C2_tracer_iff_all_stages_valid failingProducerLib normalKafkaConfig
      (by decide)).2 ?_
    rintro ⟨t, s, r, ep, smp, rep, -, hr, -, -, hrb, -⟩
    have hr' : r = ⟨"kafka", none, some kafkaMessages100⟩ := by
      have h : normalKafkaConfig.Reporter = some ⟨"kafka", none, some kafkaMessages100⟩ := rfl
      rw [h] at hr
      exact (Option.some.inj hr).symm
    subst hr'
    rcases hrb with ⟨h, -⟩ | ⟨-, k, hk, -, hflush⟩ | ⟨h, -⟩
    · exact absurd h (by decide)
    · have hk' : k = kafkaMessages100 := (Option.some.inj hk).symm
      subst hk'
      rcases hflush with ⟨h, -⟩ | ⟨f, producer, -, hp, -⟩
      · exact absurd h (by decide)
      · cases hp
    · exact absurd h (by decide)

/-- C3: an unrecognised type tag yields a configuration error naming the
field.  With the sampler present and its tag none of the five,
`newZipkinSampler` returns the error "param [sampler.type] invalid" and calls
no constructor; with endpoint and sampler built and the reporter tag none of
the three (the empty tag included), `NewZipkinTracer` returns the error
"param [reporter.type] invalid" and calls no reporter constructor. -/
theorem C3_unrecognized_tag_names_field (lib : Lib) (c : Config) :
    (∀ s, c.Sampler = some s →
      s.Type_ ∉ ["never", "always", "modulo", "boundary", "counting"] →
      c.newZipkinSampler lib = (.error (invalidConfigErr "sampler.type"), [])) ∧
    (∀ r ep smp l, c.Reporter = some r →
      lib.NewEndpoint c.ServiceName c.HostPort = .ok ep →
      c.newZipkinSampler lib = (.ok smp, l) →
      r.Type_ ∉ ["http", "kafka", "noop"] →
      c.NewZipkinTracer lib =
        (.error (invalidConfigErr "reporter.type"),
          .NewEndpoint c.ServiceName c.HostPort :: l)) ∧
    (invalidConfigErr "sampler.type").Error =
      "trpc-opentracing-zipkin: param [sampler.type] invalid" ∧
    (invalidConfigErr "reporter.type").Error =
      "trpc-opentracing-zipkin: param [reporter.type] invalid" := by
  refine ⟨?_, ?_, by decide, by decide⟩
  · intro s hs ht
    simp only [List.mem_cons, List.mem_singleton, List.not_mem_nil, or_false, not_or] at ht
    obtain ⟨h1, h2, h3, h4, h5⟩ := ht
    simp [Config.newZipkinSampler, hs, NeverSampler, AlwaysSampler, ModuloSampler,
      BoundarySampler, CountingSampler, h1, h2, h3, h4, h5]
  · intro r ep smp l hr he hsm ht
    simp only [List.mem_cons, List.mem_singleton, List.not_mem_nil, or_false, not_or] at ht
    obtain ⟨h1, h2, h3⟩ := ht
    have hs : c.Sampler ≠ none := by
      intro hn
      simp [Config.newZipkinSampler, hn] at hsm
    obtain ⟨s, hs⟩ := Option.ne_none_iff_exists'.mp hs
    simp [Config.NewZipkinTracer, Config.checkConfig, hs, hr, he, hsm,
      ReporterConfig.reporterConfig, HTTPReporter, KafkaReporter, NoopReporter, h1, h2, h3]

/-- C3 at concrete inputs: the sampler tag "" and the test case "type err"
(reporter tag ""). -/
theorem C3_unrecognized_tag_names_field_witness :
    Config.newZipkinSampler sampleLib
        ⟨"", "", false, some ⟨"", none, none, none⟩, none⟩ =
      (.error (invalidConfigErr "sampler.type"), []) ∧
    emptyReporterType.NewZipkinTracer sampleLib =
      (.error (invalidConfigErr "reporter.type"), [.NewEndpoint "" ""]) :=
  ⟨(C3_unrecognized_tag_names_field sampleLib
      ⟨"", "", false, some ⟨"", none, none, none⟩, none⟩).1 _ rfl (by decide),
   (C3_unrecognized_tag_names_field sampleLib emptyReporterType).2.1
      ⟨"", none, none⟩ ⟨0⟩ ⟨0⟩ [] rfl rfl rfl (by decide)⟩

/-- C4: for the sampler types "boundary" and "counting", when the library
constructor rejects the variant parameters with an error `e`,
`newZipkinSampler` returns no sampler and the error `samplerInitErr tag e`,
whose message is "trpc-opentracing-zipkin: init " ++ tag ++ " failed: " ++ the
message of `e`, and which unwraps to `e`. -/
theorem C4_sampler_init_error_wraps (lib : Lib) (c : Config) (s : SamplerConfig) (e : GoError)
    (hs : c.Sampler = some s) :
    (∀ b, s.Type_ = "boundary" → s.Boundary = some b →
      lib.NewBoundarySampler b.Rate b.Salt = .error e →
      (c.newZipkinSampler lib).1 = .error (samplerInitErr "boundary" e)) ∧
    (∀ k, s.Type_ = "counting" → s.Counting = some k →
      lib.NewCountingSampler k.Rate = .error e →
      (c.newZipkinSampler lib).1 = .error (samplerInitErr "counting" e)) ∧
    (∀ tag, (samplerInitErr tag e).Error =
        "trpc-opentracing-zipkin: init " ++ tag ++ " failed: " ++ e.Error ∧
      (samplerInitErr tag e).Unwrap = some e) := by
  refine ⟨?_, ?_, fun tag => ⟨rfl, rfl⟩⟩
  · intro b ht hb he
    simp [Config.newZipkinSampler, hs, ht, hb, he, NeverSampler, AlwaysSampler, ModuloSampler,
      BoundarySampler]
  · intro k ht hk he
    simp [Config.newZipkinSampler, hs, ht, hk, he, NeverSampler, AlwaysSampler, ModuloSampler,
      BoundarySampler, CountingSampler]

/-- C4 at the test case "CountingSampler" (rate 2.0), with the message of
`Test_invalidConfigErr`. -/
theorem C4_sampler_init_error_wraps_witness :
    (countingRateTwo.newZipkinSampler sampleLib).1 =
      .error (samplerInitErr "counting" (.errorString "rate invalid")) ∧
    (samplerInitErr "counting" (.errorString "rate invalid")).Error =
      "trpc-opentracing-zipkin: init counting failed: rate invalid" :=
  ⟨(C4_sampler_init_error_wraps sampleLib countingRateTwo _ (.errorString "rate invalid")
      rfl).2.1 ⟨⟨0x4000000000000000⟩⟩ rfl rfl rfl, by decide⟩

/-- C5: an empty required endpoint yields a configuration error naming the
field and no reporter.  An http block with an empty `Url` gives the error
"param [reporter.http.url] invalid" whatever the timeout and batch fields are;
a kafka block with an empty broker list gives the error
"param [reporter.kafka.url] invalid" whatever the flush block is; in both
cases no library function is called, so no producer is built. -/
theorem C5_empty_endpoint_names_field (lib : Lib) :
    (∀ h : HTTPReporterConfig, h.Url = "" →
      HTTPReporterConfig.newReporter lib (some h) =
        (.error (invalidConfigErr "reporter.http.url"), [])) ∧
    (∀ k : KafkaReporterConfig, k.Urls = [] →
      KafkaReporterConfig.newReporter lib (some k) =
        (.error (invalidConfigErr "reporter.kafka.url"), [])) ∧
    (invalidConfigErr "reporter.http.url").Error =
      "trpc-opentracing-zipkin: param [reporter.http.url] invalid" ∧
    (invalidConfigErr "reporter.kafka.url").Error =
      "trpc-opentracing-zipkin: param [reporter.kafka.url] invalid" := by
  refine ⟨?_, ?_, by decide, by decide⟩
  · intro h hu
    simp [HTTPReporterConfig.newReporter, hu]
  · intro k hu
    simp [KafkaReporterConfig.newReporter, hu]

/-- C5 at concrete inputs: an http block with only option fields set, and a
kafka block with a flush block and no brokers. -/
theorem C5_empty_endpoint_names_field_witness :
    HTTPReporterConfig.newReporter sampleLib (some ⟨"", 3, 4, 5, 6⟩) =
      (.error (invalidConfigErr "reporter.http.url"), []) ∧
    KafkaReporterConfig.newReporter sampleLib (some ⟨[], some ⟨1, 2, 3, 4⟩⟩) =
      (.error (invalidConfigErr "reporter.kafka.url"), []) :=
  ⟨(C5_empty_endpoint_names_field sampleLib).1 ⟨"", 3, 4, 5, 6⟩ rfl,
   (C5_empty_endpoint_names_field sampleLib).2.1 ⟨[], some ⟨1, 2, 3, 4⟩⟩ rfl⟩

/-- The options of `newReporterOption`, field by field. -/
theorem newReporterOption_eq (c : HTTPReporterConfig) :
    c.newReporterOption =
      (if 0 < c.TimeoutSeconds then [.Timeout (secondsToDuration c.TimeoutSeconds)] else []) ++
      (if 0 < c.BatchIntervalSeconds then
        [.BatchInterval (secondsToDuration c.BatchIntervalSeconds)] else []) ++
      (if 0 < c.BatchSize then [.BatchSize c.BatchSize] else []) ++
      (if 0 < c.MaxBacklog then [.MaxBacklog c.MaxBacklog] else []) := by
  unfold HTTPReporterConfig.newReporterOption
  by_cases h1 : 0 < c.TimeoutSeconds <;> by_cases h2 : 0 < c.BatchIntervalSeconds <;>
    by_cases h3 : 0 < c.BatchSize <;> by_cases h4 : 0 < c.MaxBacklog <;>
    simp [h1, h2, h3, h4]

/-- Up to 9223372036 seconds the conversion to nanoseconds is exact. -/
theorem secondsToDuration_exact (n : Int) (h0 : 0 < n) (h1 : n ≤ 9223372036) :
    secondsToDuration n = n * 1000000000 := by
  unfold secondsToDuration wrapInt64 timeSecond
  omega

/-- C6, as stated, fails on the code: a timeout of 9223372037 seconds yields
the single option `http.Timeout` of -9223372036709551616 nanoseconds, which is
not that many seconds (the `int64` product wraps around). -/
theorem C6_counterexample :
    hugeTimeout.newReporterOption = [.Timeout (-9223372036709551616)] ∧
    (-9223372036709551616 : Int) ≠ hugeTimeout.TimeoutSeconds * 1000000000 := by
  decide

/-- C6, amended: `newReporterOption` returns one option for exactly those of
the four fields timeout, batch interval, batch size, max backlog that are
greater than 0, in that order, and none for a field that is zero, unset or
negative; batch size and max backlog are passed unchanged; timeout and batch
interval are converted from seconds to an `int64` count of nanoseconds, which
is that many seconds for every value up to 9223372036 (about 292 years); the
number of options equals the number of positive fields; and a field that is
not positive keeps the library default (5 s, 1 s, 100, 1000). -/
theorem C6_options_for_positive_fields (c : HTTPReporterConfig) :
    c.newReporterOption =
      (if 0 < c.TimeoutSeconds then [.Timeout (secondsToDuration c.TimeoutSeconds)] else []) ++
      (if 0 < c.BatchIntervalSeconds then
        [.BatchInterval (secondsToDuration c.BatchIntervalSeconds)] else []) ++
      (if 0 < c.BatchSize then [.BatchSize c.BatchSize] else []) ++
      (if 0 < c.MaxBacklog then [.MaxBacklog c.MaxBacklog] else []) ∧
    (∀ n : Int, 0 < n → n ≤ 9223372036 → secondsToDuration n = n * 1000000000) ∧
    c.newReporterOption.length =
      ([c.TimeoutSeconds, c.BatchIntervalSeconds, c.BatchSize, c.MaxBacklog].filter
        (fun x => decide (0 < x))).length ∧
    (c.TimeoutSeconds ≤ 0 →
      (httpReporterSettings c.newReporterOption).timeout = 5 * 1000000000) ∧
    (c.BatchIntervalSeconds ≤ 0 →
      (httpReporterSettings c.newReporterOption).batchInterval = 1 * 1000000000) ∧
    (c.BatchSize ≤ 0 → (httpReporterSettings c.newReporterOption).batchSize = 100) ∧
    (c.MaxBacklog ≤ 0 → (httpReporterSettings c.newReporterOption).maxBacklog = 1000) := by
  refine ⟨newReporterOption_eq c, secondsToDuration_exact, ?_, ?_, ?_, ?_, ?_⟩
  · rw [newReporterOption_eq]
    by_cases h1 : 0 < c.TimeoutSeconds <;> by_cases h2 : 0 < c.BatchIntervalSeconds <;>
      by_cases h3 : 0 < c.BatchSize <;> by_cases h4 : 0 < c.MaxBacklog <;>
      simp [List.filter, h1, h2, h3, h4]
  all_goals
    intro h
    rw [newReporterOption_eq]
    by_cases h1 : 0 < c.TimeoutSeconds <;> by_cases h2 : 0 < c.BatchIntervalSeconds <;>
      by_cases h3 : 0 < c.BatchSize <;> by_cases h4 : 0 < c.MaxBacklog <;>
      first
      | omega
      | simp [httpReporterSettings, HTTPReporterOption.apply, defaultHTTPReporterSettings,
          timeSecond, h1, h2, h3, h4]

/-- C6, amended, at the http block of the test case "Normal" (every field 1)
and at a block with only the batch size set. -/
theorem C6_options_for_positive_fields_witness :
    HTTPReporterConfig.newReporterOption ⟨"url", 1, 1, 1, 1⟩ =
      [.Timeout 1000000000, .BatchInterval 1000000000, .BatchSize 1, .MaxBacklog 1] ∧
    secondsToDuration 1 = 1 * 1000000000 ∧
    (httpReporterSettings (HTTPReporterConfig.newReporterOption ⟨"url", 0, 0, 7, 0⟩)).timeout =
      5 * 1000000000 :=
  ⟨(C6_options_for_positive_fields ⟨"url", 1, 1, 1, 1⟩).1.trans (by decide),
   (C6_options_for_positive_fields ⟨"url", 1, 1, 1, 1⟩).2.1 1 (by decide) (by decide),
   (C6_options_for_positive_fields ⟨"url", 0, 0, 7, 0⟩).2.2.2.1 (by decide)⟩

/-- C7 fails on the code: at the kafka block of the test case "NormalKafka"
(`messages: 100`, `max_messages` unset) the producer is built with
`Flush.Messages = 0`, not 100; in general the configuration handed to
`sarama.NewAsyncProducer` takes `Flush.Messages` from the field `MaxMessages`,
while `Bytes`, `Frequency` and `MaxMessages` come from their own fields. -/
theorem C7_flush_messages_taken_from_max_messages :
    (KafkaReporterConfig.newReporter sampleLib (some kafkaMessages100)).2 =
      [.saramaNewConfig,
       .NewAsyncProducer ["url"]
          { Flush := { Bytes := 0, Messages := 0, Frequency := 0, MaxMessages := 0 }, others := 0 },
       .kafkaNewReporter ["url"] (some ⟨0⟩)] ∧
    (∀ (lib : Lib) (u : String) (us : List String) (f : KafkaProducerFlushConfig),
      (KafkaReporterConfig.newReporter lib (some ⟨u :: us, some f⟩)).2.take 2 =
        [.saramaNewConfig,
         .NewAsyncProducer (u :: us)
            { Flush := { Bytes := f.Bytes, Messages := f.MaxMessages, Frequency := f.Frequency,
                         MaxMessages := f.MaxMessages },
              others := lib.saramaNewConfig.others }]) := by
  refine ⟨by decide, ?_⟩
  intro lib u us f
  simp only [KafkaReporterConfig.newReporter, List.length_cons, Nat.add_one_ne_zero, if_false]
  split
  · rfl
  · split <;> rfl

/-- C8: service identity follows the precedence per-service override, then
configured value, then process-wide default.  After `withDefault`,
`withServiceName name` and `withHostPort ip port` the service name is `name` if
that is non-empty, else the configured one if non-empty, else the global server
name; the host-port is `ip:port` (port in decimal) if `ip` is non-empty, else
the configured one if non-empty, else the local IP; an empty name or ip leaves
the configuration unchanged; `TraceID128`, `Sampler` and `Reporter` are not
changed by any of the three operations. -/
theorem C8_identity_precedence (c : Config) (g l name ip : String) (port : Fin 65536) :
    (((c.withDefault g l).withServiceName name).withHostPort ip port).ServiceName =
      (if name ≠ "" then name else if c.ServiceName ≠ "" then c.ServiceName else g) ∧
    (((c.withDefault g l).withServiceName name).withHostPort ip port).HostPort =
      (if ip ≠ "" then ip ++ ":" ++ Nat.repr port.val
       else if c.HostPort ≠ "" then c.HostPort else l) ∧
    c.withServiceName "" = c ∧
    c.withHostPort "" port = c ∧
    ((c.withDefault g l).TraceID128 = c.TraceID128 ∧ (c.withDefault g l).Sampler = c.Sampler ∧
      (c.withDefault g l).Reporter = c.Reporter) ∧
    ((c.withServiceName name).TraceID128 = c.TraceID128 ∧
      (c.withServiceName name).Sampler = c.Sampler ∧
      (c.withServiceName name).Reporter = c.Reporter ∧
      (c.withServiceName name).HostPort = c.HostPort) ∧
    ((c.withHostPort ip port).TraceID128 = c.TraceID128 ∧
      (c.withHostPort ip port).Sampler = c.Sampler ∧
      (c.withHostPort ip port).Reporter = c.Reporter ∧
      (c.withHostPort ip port).ServiceName = c.ServiceName) := by
  unfold Config.withDefault Config.withServiceName Config.withHostPort
  by_cases h1 : name = "" <;> by_cases h2 : ip = "" <;> by_cases h3 : c.ServiceName = "" <;>
    by_cases h4 : c.HostPort = "" <;> simp [h1, h2, h3, h4]

/-- The test `TestConfigSetDefault`, evaluated. -/
theorem TestConfigSetDefault_eval :
    ((Config.withServiceName ⟨"", "", false, none, none⟩ "").ServiceName = "") ∧
    ((Config.withServiceName ⟨"", "", false, none, none⟩ "HelloTestService").ServiceName =
      "HelloTestService") ∧
    ((Config.withHostPort ⟨"HelloTestService", "", false, none, none⟩ "127.0.0.1" 8080).HostPort =
      "127.0.0.1:8080") := by
  decide

/-! ## Theorems: the filters -/

/-- The error branch sets the error tag exactly when there is an error. -/
theorem erroredSpans_errorEvents (span : Span) (err : Option GoError) :
    erroredSpans (errorEvents span err) = if err.isSome then [span] else [] := by
  cases err <;> rfl

/-- The error branch invokes no handler. -/
theorem handlerCalls_errorEvents (span : Span) (err : Option GoError) :
    handlerCalls (errorEvents span err) = [] := by
  cases err <;> rfl

/-- C9: the function returned by `ServerFilter`, for every plugin state, call
context, request and inner handler (and every behaviour of the tracer,
extraction failure included), invokes the handler exactly once, on the context
extended with the server span, and returns exactly the response and the error
of that invocation: nil when the handler succeeds, the handler's error when it
fails, on the http-header path and on the metadata path alike; the error tag is
set on the server span if and only if the handler's error is non-nil, and on no
other span. -/
theorem C9_server_filter_returns_handler_result (ot : OpenTracing) (z : zipkinPlugin)
    (ctx : Ctx) (req : GoValue) (handler : ServerHandleFunc) :
    ∃ serverSpan : Span,
      (ServerFilter ot z ctx req handler).1 = handler (ContextWithSpan ctx serverSpan) req ∧
      handlerCalls (ServerFilter ot z ctx req handler).2 =
        [(ContextWithSpan ctx serverSpan, req)] ∧
      erroredSpans (ServerFilter ot z ctx req handler).2 =
        (if (handler (ContextWithSpan ctx serverSpan) req).2.isSome then [serverSpan] else []) ∧
      Event.Finish serverSpan ∈ (ServerFilter ot z ctx req handler).2 := by
  obtain ⟨msg, header, span⟩ := ctx
  have h₁ := handlerCalls_errorEvents
  have h₂ := erroredSpans_errorEvents
  simp only [handlerCalls, erroredSpans] at h₁ h₂
  unfold ServerFilter
  refine ⟨_, rfl, ?_, ?_, ?_⟩
  · cases header <;>
      simp only [handlerCalls, List.filterMap_append, List.filterMap_cons, List.filterMap_nil,
        h₁, List.append_nil, List.nil_append] <;>
      split <;> (try split) <;> simp
  · cases header <;>
      simp only [erroredSpans, List.filterMap_append, List.filterMap_cons, List.filterMap_nil,
        h₂, List.append_nil, List.nil_append] <;>
      split <;> (try split) <;> simp
  · simp

/-- The shape of a run of the function returned by `ClientFilter`: a prefix of
events without handler invocation and without error tag, then the type
assertion on the context of the span the tracer started. -/
theorem ClientFilter_shape (ot : OpenTracing) (z : zipkinPlugin)
    (ctx : Ctx) (req rsp : GoValue) (handler : ClientHandleFunc) :
    ∃ (before : List Event) (ctx' : Ctx) (clientSpan : Span),
      handlerCalls before = [] ∧ erroredSpans before = [] ∧
      ctx'.span = some clientSpan ∧
      (∃ t name opts, clientSpan = ot.StartSpan t name opts) ∧
      ClientFilter ot z ctx req rsp handler =
        (match clientSpan.Context with
         | .other _ => (.panic, before)
         | .zipkin _ =>
           ((match handler ctx' req rsp with
             | some e => .error e
             | none => .ok ()),
            before ++ [.Debugf "span: %+v", .handler ctx' req] ++
            errorEvents clientSpan (handler ctx' req rsp) ++ [.Finish clientSpan])) := by
  unfold ClientFilter
  refine ⟨_, _, _, ?_, ?_, ?_, ⟨_, _, _, rfl⟩, rfl⟩
  · simp only [handlerCalls, List.filterMap_append, List.filterMap_cons, List.filterMap_nil,
      List.append_nil, List.nil_append]
    (repeat' split) <;> simp
  · simp only [erroredSpans, List.filterMap_append, List.filterMap_cons, List.filterMap_nil,
      List.append_nil, List.nil_append]
    (repeat' split) <;> simp
  · rfl

/-- The test case "http" of `TestServerFilter`, evaluated: the events of the
call, in order, and its result. -/
theorem TestServerFilter_http_eval :
    ServerFilter noopOpenTracing emptyPlugin httpCtx ⟨0⟩ failingServerHandler =
      ((none, some (.errorString "test")),
       [.Debugf "headers: %+v",
        .Extract ⟨0⟩ (.HTTPHeadersCarrier []),
        .StartSpan ⟨0⟩ "" [.RPCServerOption none],
        .handler { httpCtx with span := some ⟨0, .other 0⟩ } ⟨0⟩,
        .SetErrorTag ⟨0, .other 0⟩,
        .LogFields ⟨0, .other 0⟩ [("event", "error"), ("message", "test")],
        .Finish ⟨0, .other 0⟩]) := by
  decide

/-- When the span the tracer starts carries a `zipkin.SpanContext`, the
function returned by `ClientFilter` invokes the handler exactly once and returns
exactly its error, whether or not the injection failed; the error tag is set
on the client span exactly when that error is non-nil. -/
theorem ClientFilter_zipkin_returns_handler_error (ot : OpenTracing) (z : zipkinPlugin)
    (ctx : Ctx) (req rsp : GoValue) (handler : ClientHandleFunc)
    (hz : ∀ t name opts, ∃ id, (ot.StartSpan t name opts).Context = .zipkin id) :
    ∃ (ctx' : Ctx) (clientSpan : Span),
      (ClientFilter ot z ctx req rsp handler).1 =
        (match handler ctx' req rsp with
         | some e => .error e
         | none => .ok ()) ∧
      handlerCalls (ClientFilter ot z ctx req rsp handler).2 = [(ctx', req)] ∧
      erroredSpans (ClientFilter ot z ctx req rsp handler).2 =
        (if (handler ctx' req rsp).isSome then [clientSpan] else []) ∧
      ctx'.span = some clientSpan ∧
      Event.Finish clientSpan ∈ (ClientFilter ot z ctx req rsp handler).2 := by
  obtain ⟨before, ctx', sp, hb₁, hb₂, hspan, ⟨t, name, opts, hsp⟩, heq⟩ :=
    ClientFilter_shape ot z ctx req rsp handler
  obtain ⟨id, hid⟩ := hz t name opts
  rw [← hsp] at hid
  rw [hid] at heq
  refine ⟨ctx', sp, ?_, ?_, ?_, hspan, ?_⟩
  · rw [heq]
  · rw [heq]
    have h := handlerCalls_errorEvents sp (handler ctx' req rsp)
    simp only [handlerCalls] at h hb₁
    simp [handlerCalls, List.filterMap_append, h, hb₁]
  · rw [heq]
    have h := erroredSpans_errorEvents sp (handler ctx' req rsp)
    simp only [erroredSpans] at h hb₂
    simp [erroredSpans, List.filterMap_append, h, hb₂]
  · rw [heq]
    simp

/-- When the span the tracer starts carries a span context of another dynamic
type, the function returned by `ClientFilter` panics and the handler is never
invoked. -/
theorem ClientFilter_foreign_context_panics (ot : OpenTracing) (z : zipkinPlugin)
    (ctx : Ctx) (req rsp : GoValue) (handler : ClientHandleFunc)
    (hz : ∀ t name opts, ∃ id, (ot.StartSpan t name opts).Context = .other id) :
    (ClientFilter ot z ctx req rsp handler).1 = .panic ∧
    handlerCalls (ClientFilter ot z ctx req rsp handler).2 = [] := by
  obtain ⟨before, ctx', sp, hb₁, _, _, ⟨t, name, opts, hsp⟩, heq⟩ :=
    ClientFilter_shape ot z ctx req rsp handler
  obtain ⟨id, hid⟩ := hz t name opts
  rw [← hsp] at hid
  rw [hid] at heq
  rw [heq]
  exact ⟨rfl, hb₁⟩

/-- C10 fails on the code: with no tracer registered for the callee and the
global tracer of opentracing-go still its `NoopTracer`, the function returned
by `ClientFilter` starts the span, injects, and then panics in the type
assertion `clientSpan.Context().(zipkin.SpanContext)`; the handler (here the
succeeding handler of the test case "normal") is never invoked and no error
value is returned. -/
theorem C10_client_filter_panics_before_handler :
    ClientFilter noopOpenTracing emptyPlugin backgroundCtx ⟨0⟩ ⟨1⟩ okClientHandler =
      (.panic,
        [.StartSpan ⟨0⟩ "" [.ChildOf none, .SpanKindRPCClient],
         .Debugf "carrier: %+v",
         .Inject ⟨0⟩ (.other 0) (.metadataTextMap []),
         .WithClientMetaData []]) ∧
    handlerCalls
      (ClientFilter noopOpenTracing emptyPlugin backgroundCtx ⟨0⟩ ⟨1⟩ okClientHandler).2 = [] := by
  decide

/-! ## Theorems: the life of a span -/

/-- The error branch has no `StartSpan`. -/
theorem startedSpans_errorEvents (ot : OpenTracing) (span : Span) (err : Option GoError) :
    startedSpans ot (errorEvents span err) = [] := by
  cases err <;> rfl

/-- The events of the function returned by `ServerFilter`: a prefix that starts
the server span and does nothing else to a span, then the handler, then the
error tag and log fields if the handler failed, then `Finish` as the last
event. -/
theorem ServerFilter_span_lifecycle (ot : OpenTracing) (z : zipkinPlugin)
    (ctx : Ctx) (req : GoValue) (handler : ServerHandleFunc) :
    ∃ (serverSpan : Span) (pre : List Event),
      (ServerFilter ot z ctx req handler).2 =
        pre ++ [.handler (ContextWithSpan ctx serverSpan) req] ++
          errorEvents serverSpan (handler (ContextWithSpan ctx serverSpan) req).2 ++
          [.Finish serverSpan] ∧
      startedSpans ot pre = [serverSpan] ∧ spanOps pre = [] ∧ handlerCalls pre = [] := by
  obtain ⟨msg, header, span⟩ := ctx
  have key : ∃ (serverSpan : Span) (e₁ e₂ e₃ : Event) (xlog : List Event),
      (ServerFilter ot z ⟨msg, header, span⟩ req handler).2 =
        [e₁, e₂] ++ xlog ++ [e₃, .handler (ContextWithSpan ⟨msg, header, span⟩ serverSpan) req] ++
          errorEvents serverSpan
            (handler (ContextWithSpan ⟨msg, header, span⟩ serverSpan) req).2 ++
          [.Finish serverSpan] ∧
      startedSpans ot ([e₁, e₂] ++ xlog ++ [e₃]) = [serverSpan] ∧
      spanOps ([e₁, e₂] ++ xlog ++ [e₃]) = [] ∧
      handlerCalls ([e₁, e₂] ++ xlog ++ [e₃]) = [] := by
    unfold ServerFilter
    cases header <;> refine ⟨_, _, _, _, _, rfl, ?_, ?_, ?_⟩
    all_goals
      simp only [startedSpans, spanOps, handlerCalls, List.filterMap_append,
        List.filterMap_cons, List.filterMap_nil, List.filter_append, List.filter_cons,
        List.filter_nil, List.append_nil, List.nil_append]
      (repeat' split) <;> simp_all
  obtain ⟨serverSpan, e₁, e₂, e₃, xlog, hev, h₁, h₂, h₃⟩ := key
  refine ⟨serverSpan, [e₁, e₂] ++ xlog ++ [e₃], ?_, h₁, h₂, h₃⟩
  rw [hev]
  simp only [List.append_assoc, List.cons_append, List.nil_append]

/-- The shape of a run of the function returned by `ClientFilter`, with the
life of the span: the events before the type assertion start the client span
and do nothing else to a span. -/
theorem ClientFilter_shape_spans (ot : OpenTracing) (z : zipkinPlugin)
    (ctx : Ctx) (req rsp : GoValue) (handler : ClientHandleFunc) :
    ∃ (before : List Event) (ctx' : Ctx) (clientSpan : Span),
      startedSpans ot before = [clientSpan] ∧ spanOps before = [] ∧
      handlerCalls before = [] ∧
      (∃ t name opts, clientSpan = ot.StartSpan t name opts) ∧
      ClientFilter ot z ctx req rsp handler =
        (match clientSpan.Context with
         | .other _ => (.panic, before)
         | .zipkin _ =>
           ((match handler ctx' req rsp with
             | some e => .error e
             | none => .ok ()),
            before ++ [.Debugf "span: %+v", .handler ctx' req] ++
            errorEvents clientSpan (handler ctx' req rsp) ++ [.Finish clientSpan])) := by
  have key : ∃ (tracer : Tracer) (name : String) (opts : List StartSpanOption)
      (sc : SpanContext) (carrier : Carrier) (ilog mlog : List Event) (ctx' : Ctx),
      (ilog = [] ∨ ∃ f e, ilog = [.Errorf f e]) ∧
      (mlog = [] ∨ ∃ md, mlog = [.WithClientMetaData md]) ∧
      ClientFilter ot z ctx req rsp handler =
        (match (ot.StartSpan tracer name opts).Context with
         | .other _ =>
           (.panic, [.StartSpan tracer name opts, .Debugf "carrier: %+v",
              .Inject tracer sc carrier] ++ ilog ++ mlog)
         | .zipkin _ =>
           ((match handler ctx' req rsp with
             | some e => .error e
             | none => .ok ()),
            [.StartSpan tracer name opts, .Debugf "carrier: %+v",
              .Inject tracer sc carrier] ++ ilog ++ mlog ++
            [.Debugf "span: %+v", .handler ctx' req] ++
            errorEvents (ot.StartSpan tracer name opts) (handler ctx' req rsp) ++
            [.Finish (ot.StartSpan tracer name opts)])) := by
    unfold ClientFilter
    refine ⟨_, _, _, _, _, _, _, _, ?_, ?_, rfl⟩
    · split <;> simp
    · split <;> simp
  obtain ⟨tracer, name, opts, sc, carrier, ilog, mlog, ctx', hi, hm, heq⟩ := key
  refine ⟨_, ctx', ot.StartSpan tracer name opts, ?_, ?_, ?_, ⟨_, _, _, rfl⟩, heq⟩
  · rcases hi with rfl | ⟨f, e, rfl⟩ <;> rcases hm with rfl | ⟨md, rfl⟩ <;> rfl
  · rcases hi with rfl | ⟨f, e, rfl⟩ <;> rcases hm with rfl | ⟨md, rfl⟩ <;> rfl
  · rcases hi with rfl | ⟨f, e, rfl⟩ <;> rcases hm with rfl | ⟨md, rfl⟩ <;> rfl

/-- When the span the tracer starts carries a `zipkin.SpanContext`, the events
of the function returned by `ClientFilter` are: a prefix that starts the client
span and does nothing else to a span, the handler, the error tag and log fields
if the handler failed, and `Finish` as the last event. -/
theorem ClientFilter_zipkin_span_lifecycle (ot : OpenTracing) (z : zipkinPlugin)
    (ctx : Ctx) (req rsp : GoValue) (handler : ClientHandleFunc)
    (hz : ∀ t name opts, ∃ id, (ot.StartSpan t name opts).Context = .zipkin id) :
    ∃ (ctx' : Ctx) (clientSpan : Span) (pre : List Event),
      (ClientFilter ot z ctx req rsp handler).2 =
        pre ++ [.handler ctx' req] ++ errorEvents clientSpan (handler ctx' req rsp) ++
          [.Finish clientSpan] ∧
      startedSpans ot pre = [clientSpan] ∧ spanOps pre = [] ∧ handlerCalls pre = [] := by
  obtain ⟨before, ctx', sp, h₁, h₂, h₃, ⟨t, name, opts, hsp⟩, heq⟩ :=
    ClientFilter_shape_spans ot z ctx req rsp handler
  obtain ⟨id, hid⟩ := hz t name opts
  rw [← hsp] at hid
  rw [hid] at heq
  refine ⟨ctx', sp, before ++ [.Debugf "span: %+v"], ?_, ?_, ?_, ?_⟩
  · rw [heq]
    simp only [List.append_assoc, List.cons_append, List.nil_append]
  · simp only [startedSpans] at h₁
    simp [startedSpans, List.filterMap_append, h₁]
  · simp only [spanOps] at h₂
    simp [spanOps, List.filter_append, h₂]
  · simp only [handlerCalls] at h₃
    simp [handlerCalls, List.filterMap_append, h₃]

/-- When the span the tracer starts carries a span context of another dynamic
type, the function returned by `ClientFilter` starts the client span and never
finishes it. -/
theorem ClientFilter_foreign_context_span_unfinished (ot : OpenTracing) (z : zipkinPlugin)
    (ctx : Ctx) (req rsp : GoValue) (handler : ClientHandleFunc)
    (hz : ∀ t name opts, ∃ id, (ot.StartSpan t name opts).Context = .other id) :
    ∃ clientSpan : Span,
      startedSpans ot (ClientFilter ot z ctx req rsp handler).2 = [clientSpan] ∧
      spanOps (ClientFilter ot z ctx req rsp handler).2 = [] := by
  obtain ⟨before, ctx', sp, h₁, h₂, _, ⟨t, name, opts, hsp⟩, heq⟩ :=
    ClientFilter_shape_spans ot z ctx req rsp handler
  obtain ⟨id, hid⟩ := hz t name opts
  rw [← hsp] at hid
  rw [hid] at heq
  rw [heq]
  exact ⟨sp, h₁, h₂⟩

/-- C11 fails on the code, for `ClientFilter`.  The function returned by
`ServerFilter` does what the claim says on every input: one `StartSpan`, then
the handler, then the error tag and log fields if the handler failed, then
`Finish` of that span as the last event.  The function returned by
`ClientFilter`, with no tracer registered for the callee and the global tracer
of opentracing-go still its `NoopTracer`, starts a span and panics in the type
assertion before the handler: the span is never finished. -/
theorem C11_client_span_started_never_finished :
    (∀ (ot : OpenTracing) (z : zipkinPlugin) (ctx : Ctx) (req : GoValue)
        (handler : ServerHandleFunc),
      ∃ (serverSpan : Span) (pre : List Event),
        (ServerFilter ot z ctx req handler).2 =
          pre ++ [.handler (ContextWithSpan ctx serverSpan) req] ++
            errorEvents serverSpan (handler (ContextWithSpan ctx serverSpan) req).2 ++
            [.Finish serverSpan] ∧
        startedSpans ot pre = [serverSpan] ∧ spanOps pre = [] ∧ handlerCalls pre = []) ∧
    (ClientFilter noopOpenTracing emptyPlugin backgroundCtx ⟨0⟩ ⟨1⟩ okClientHandler).1 = .panic ∧
    startedSpans noopOpenTracing
      (ClientFilter noopOpenTracing emptyPlugin backgroundCtx ⟨0⟩ ⟨1⟩ okClientHandler).2 =
        [⟨0, .other 0⟩] ∧
    spanOps
      (ClientFilter noopOpenTracing emptyPlugin backgroundCtx ⟨0⟩ ⟨1⟩ okClientHandler).2 = [] :=
  ⟨ServerFilter_span_lifecycle, by decide, by decide, by decide⟩

/-! ## Theorems: the metadata carrier -/

/-- Converting a string to bytes and back gives the string. -/
theorem GoString.ofBytes_toBytes (v : GoString) : GoString.ofBytes v.toBytes = v :=
  rfl

/-- Removing the entries of another key does not change what a key maps to. -/
theorem lookup_filter_ne (md : MetaData) (k k' : String) (h : k' ≠ k) :
    (md.filter (fun e => e.1 ≠ k)).lookup k' = md.lookup k' := by
  induction md with
  | nil => rfl
  | cons e rest ih =>
    obtain ⟨a, b⟩ := e
    simp only [ne_eq, decide_not] at ih
    by_cases ha : a = k
    · have hk : (k' == k) = false := by simpa using h
      simp [List.filter_cons, ha, List.lookup_cons, hk, ih]
    · cases hk : (k' == a) with
      | true => simp [List.filter_cons, ha, List.lookup_cons, hk]
      | false => simp [List.filter_cons, ha, List.lookup_cons, hk, ih]

/-- With a callback that never fails, the loop visits every entry, in order,
and returns no error. -/
theorem foreachEntries_never_fails (callback : String → GoString → Option GoError)
    (hc : ∀ a b, callback a b = none) (l : List (String × List Nat)) :
    foreachEntries callback l = (none, l.map fun e => (e.1, GoString.ofBytes e.2)) := by
  induction l with
  | nil => rfl
  | cons e rest ih =>
    obtain ⟨a, b⟩ := e
    simp [foreachEntries, hc, ih]

/-- The loop returns no error exactly when the callback fails on no entry. -/
theorem foreachEntries_err_none_iff (callback : String → GoString → Option GoError)
    (l : List (String × List Nat)) :
    (foreachEntries callback l).1 = none ↔
      ∀ e ∈ l, callback e.1 (GoString.ofBytes e.2) = none := by
  induction l with
  | nil => simp [foreachEntries]
  | cons e rest ih =>
    obtain ⟨a, b⟩ := e
    cases hcb : callback a (GoString.ofBytes b) with
    | none => simp [foreachEntries, hcb, ih]
    | some err => simp [foreachEntries, hcb]

/-- Without an error, the loop has invoked the callback on every entry, in the
order of the visit. -/
theorem foreachEntries_calls_of_none (callback : String → GoString → Option GoError)
    (l : List (String × List Nat)) (h : (foreachEntries callback l).1 = none) :
    (foreachEntries callback l).2 = l.map fun e => (e.1, GoString.ofBytes e.2) := by
  induction l with
  | nil => rfl
  | cons e rest ih =>
    obtain ⟨a, b⟩ := e
    cases hcb : callback a (GoString.ofBytes b) with
    | none =>
      simp only [foreachEntries, hcb] at h ⊢
      simp [ih h]
    | some err => simp [foreachEntries, hcb] at h

/-- With an error, the loop has stopped at the first entry on which the
callback fails: it returns that error, and its invocations are the entries up
to and including that one. -/
theorem foreachEntries_first_error (callback : String → GoString → Option GoError)
    (l : List (String × List Nat)) (err : GoError)
    (h : (foreachEntries callback l).1 = some err) :
    ∃ (pre : List (String × List Nat)) (e : String × List Nat)
      (post : List (String × List Nat)),
      l = pre ++ e :: post ∧
      callback e.1 (GoString.ofBytes e.2) = some err ∧
      (∀ x ∈ pre, callback x.1 (GoString.ofBytes x.2) = none) ∧
      (foreachEntries callback l).2 =
        (pre ++ [e]).map fun e => (e.1, GoString.ofBytes e.2) := by
  induction l with
  | nil => simp [foreachEntries] at h
  | cons e rest ih =>
    obtain ⟨a, b⟩ := e
    cases hcb : callback a (GoString.ofBytes b) with
    | none =>
      simp only [foreachEntries, hcb] at h ⊢
      obtain ⟨pre, e, post, hl, he, hpre, hcalls⟩ := ih h
      refine ⟨(a, b) :: pre, e, post, by simp [hl], he, ?_, by simp [hcalls]⟩
      intro x hx
      rcases List.mem_cons.mp hx with rfl | hx
      · exact hcb
      · exact hpre x hx
    | some err' =>
      simp only [foreachEntries, hcb, Option.some.injEq] at h ⊢
      subst h
      exact ⟨[], (a, b), rest, rfl, hcb, by simp, rfl⟩

/-- C12, as stated, fails on the code: on the nil map (the zero value of
`metadataTextMap`) the assignment in `Set` panics, and no entry is written. -/
theorem C12_counterexample :
    metadataTextMap.Set none "1" (GoString.ofBytes [49]) = .panic ∧
    ¬ ∃ m', metadataTextMap.Set none "1" (GoString.ofBytes [49]) = .ok m' := by
  refine ⟨rfl, ?_⟩
  rintro ⟨m', h⟩
  cases h

/-- C12, amended: for every non-nil `metadataTextMap` (a map: its keys are
unique), key `k` and string value `v`, after `Set k v` the entry of `k` is
exactly the bytes of `v`, every other key keeps its previous value, the key set
is the old key set plus `k` and the keys stay unique; and `ForeachKey` with a
callback that never fails, whatever the order in which it visits the entries,
returns nil, presents every entry with its value converted back to a string,
every key exactly once, and the pair `(k, v)` exactly once. -/
theorem C12_set_then_foreach_round_trip (md : MetaData) (k : String) (v : GoString)
    (hm : (metadataTextMap.keys (some md)).Nodup) :
    ∃ md' : MetaData,
      metadataTextMap.Set (some md) k v = .ok (some md') ∧
      metadataTextMap.get (some md') k = some v.toBytes ∧
      (∀ k', k' ≠ k →
        metadataTextMap.get (some md') k' = metadataTextMap.get (some md) k') ∧
      (∀ k', k' ∈ metadataTextMap.keys (some md') ↔
        k' = k ∨ k' ∈ metadataTextMap.keys (some md)) ∧
      (metadataTextMap.keys (some md')).Nodup ∧
      (∀ (visit : MetaData) (callback : String → GoString → Option GoError),
        visit.Perm md' → (∀ a b, callback a b = none) →
        (metadataTextMap.ForeachKey (some visit) callback).err = none ∧
        (metadataTextMap.ForeachKey (some visit) callback).calls =
          visit.map (fun e => (e.1, GoString.ofBytes e.2)) ∧
        ((metadataTextMap.ForeachKey (some visit) callback).calls.map Prod.fst).Perm
          (metadataTextMap.keys (some md')) ∧
        ((metadataTextMap.ForeachKey (some visit) callback).calls.filter
          (fun c => decide (c = (k, v)))).length = 1) := by
  simp only [metadataTextMap.keys, metadataTextMap.entries] at hm
  have hsub : ((md.filter (fun e => e.1 ≠ k)).map Prod.fst).Sublist (md.map Prod.fst) :=
    (List.filter_sublist md).map Prod.fst
  have hnot : k ∉ (md.filter (fun e => e.1 ≠ k)).map Prod.fst := by
    simp [List.mem_map, List.mem_filter]
  refine ⟨(k, v.toBytes) :: md.filter (fun e => e.1 ≠ k), rfl, ?_, ?_, ?_, ?_, ?_⟩
  · simp [metadataTextMap.get, metadataTextMap.entries, List.lookup_cons]
  · intro k' hk'
    have hb : (k' == k) = false := by simpa using hk'
    simp only [metadataTextMap.get, metadataTextMap.entries, List.lookup_cons, hb]
    exact lookup_filter_ne md k k' hk'
  · intro k'
    simp only [metadataTextMap.keys, metadataTextMap.entries, List.map_cons, List.mem_cons,
      List.mem_map, List.mem_filter]
    constructor
    · rintro (h | ⟨e, ⟨he, _⟩, rfl⟩)
      · exact Or.inl h
      · exact Or.inr ⟨e, he, rfl⟩
    · rintro (h | ⟨e, he, rfl⟩)
      · exact Or.inl h
      · by_cases hk : e.1 = k
        · exact Or.inl hk
        · exact Or.inr ⟨e, ⟨he, by simpa using hk⟩, rfl⟩
  · simp only [metadataTextMap.keys, metadataTextMap.entries, List.map_cons]
    exact List.nodup_cons.mpr ⟨hnot, hm.sublist hsub⟩
  · intro visit callback hperm hc
    have hrun := foreachEntries_never_fails callback hc visit
    have hcalls : (metadataTextMap.ForeachKey (some visit) callback).calls =
        visit.map (fun e => (e.1, GoString.ofBytes e.2)) := by
      simp [metadataTextMap.ForeachKey, metadataTextMap.entries, hrun]
    refine ⟨by simp [metadataTextMap.ForeachKey, metadataTextMap.entries, hrun], hcalls, ?_, ?_⟩
    · rw [hcalls]
      simp only [metadataTextMap.keys, metadataTextMap.entries, List.map_map]
      exact hperm.map _
    · rw [hcalls, (((hperm.map (fun e => (e.1, GoString.ofBytes e.2))).filter
        (fun c => decide (c = (k, v)))).length_eq)]
      have hzero : ((md.filter (fun e => e.1 ≠ k)).map
          (fun e => (e.1, GoString.ofBytes e.2))).filter (fun c => decide (c = (k, v))) = [] := by
        apply List.filter_eq_nil_iff.mpr
        intro c hmem
        obtain ⟨e, he, heq⟩ := List.mem_map.mp hmem
        intro hc'
        have hk : e.1 = k := by
          have := of_decide_eq_true hc'
          rw [← heq] at this
          exact congrArg Prod.fst this
        exact hnot (List.mem_map.mpr ⟨e, he, hk⟩)
      rw [List.map_cons, List.filter_cons, hzero]
      simp [GoString.ofBytes, GoString.toBytes]

/-- C12, amended, at the test `Test_metadataTextMap_Set` (the empty map, key
"1", value "1") and at a map that already has the key. -/
theorem C12_set_then_foreach_round_trip_witness :
    (metadataTextMap.keys (some [])).Nodup ∧
    (∃ md' : MetaData,
      metadataTextMap.Set (some []) "1" (GoString.ofBytes [49]) = .ok (some md') ∧
      metadataTextMap.get (some md') "1" = some [49]) ∧
    (∃ md' : MetaData,
      metadataTextMap.Set sampleTextMap "1" (GoString.ofBytes [50]) = .ok (some md') ∧
      metadataTextMap.get (some md') "1" = some [50]) := by
  refine ⟨List.nodup_nil, ?_, ?_⟩
  · obtain ⟨md', h₁, h₂, _⟩ :=
      C12_set_then_foreach_round_trip [] "1" (GoString.ofBytes [49]) List.nodup_nil
    exact ⟨md', h₁, h₂⟩
  · obtain ⟨md', h₁, h₂, _⟩ :=
      C12_set_then_foreach_round_trip [("1", [49])] "1" (GoString.ofBytes [50]) (by decide)
    exact ⟨md', h₁, h₂⟩

/-- C13: for every `metadataTextMap` (the nil map included), in whatever order
the entries are visited, and every callback whose result depends only on its
arguments, `ForeachKey` returns nil if and only if the callback returns nil on
every entry (so it returns nil on the empty and on the nil map for any
callback); otherwise it returns, unchanged, the error of the first entry on
which the callback fails, having invoked the callback on the entries up to and
including that one and on no entry after it; and the map is the same after the
call. -/
theorem C13_foreach_stops_at_first_error (m : metadataTextMap)
    (callback : String → GoString → Option GoError) :
    ((metadataTextMap.ForeachKey m callback).err = none ↔
      ∀ e ∈ metadataTextMap.entries m, callback e.1 (GoString.ofBytes e.2) = none) ∧
    (metadataTextMap.ForeachKey (some []) callback).err = none ∧
    (metadataTextMap.ForeachKey none callback).err = none ∧
    ((metadataTextMap.ForeachKey m callback).err = none →
      (metadataTextMap.ForeachKey m callback).calls =
        (metadataTextMap.entries m).map (fun e => (e.1, GoString.ofBytes e.2))) ∧
    (∀ err, (metadataTextMap.ForeachKey m callback).err = some err →
      ∃ (pre : List (String × List Nat)) (e : String × List Nat)
        (post : List (String × List Nat)),
        metadataTextMap.entries m = pre ++ e :: post ∧
        callback e.1 (GoString.ofBytes e.2) = some err ∧
        (∀ x ∈ pre, callback x.1 (GoString.ofBytes x.2) = none) ∧
        (metadataTextMap.ForeachKey m callback).calls =
          (pre ++ [e]).map (fun e => (e.1, GoString.ofBytes e.2))) ∧
    (metadataTextMap.ForeachKey m callback).after = m := by
  refine ⟨foreachEntries_err_none_iff callback _, rfl, rfl,
    foreachEntries_calls_of_none callback _, ?_, rfl⟩
  intro err h
  exact foreachEntries_first_error callback _ err h

/-- C13 at the test case "error_test": the map `m1` and a callback that fails
on every entry. -/
theorem C13_foreach_stops_at_first_error_witness :
    (metadataTextMap.ForeachKey sampleTextMap failingCallback).err =
      some (.errorString "test") ∧
    ∃ (pre : List (String × List Nat)) (e : String × List Nat)
      (post : List (String × List Nat)),
      metadataTextMap.entries sampleTextMap = pre ++ e :: post ∧
      failingCallback e.1 (GoString.ofBytes e.2) = some (.errorString "test") ∧
      (∀ x ∈ pre, failingCallback x.1 (GoString.ofBytes x.2) = none) ∧
      (metadataTextMap.ForeachKey sampleTextMap failingCallback).calls =
        (pre ++ [e]).map (fun e => (e.1, GoString.ofBytes e.2)) :=
  ⟨rfl, (C13_foreach_stops_at_first_error sampleTextMap failingCallback).2.2.2.2.1
      (.errorString "test") rfl⟩

/-! ## Theorems: the plugin set-up -/

/-- A service in front changes the default of the services behind it. -/
theorem lastServiceName_cons (s : ServiceConfig) (l : List ServiceConfig) (dflt : String) :
    lastServiceName (s :: l) dflt =
      lastServiceName l (if s.Name ≠ "" then s.Name else dflt) := by
  unfold lastServiceName
  by_cases hs : s.Name = ""
  · simp [List.filter_cons, hs]
  · simp only [List.filter_cons, hs, ne_eq, not_false_eq_true, decide_True, if_true,
      List.getLast?_cons]
    cases (l.filter (fun s => decide (s.Name ≠ ""))).getLast? <;> rfl

/-- A service in front changes the default of the services behind it. -/
theorem lastHostPort_cons (s : ServiceConfig) (l : List ServiceConfig) (dflt : String) :
    lastHostPort (s :: l) dflt =
      lastHostPort l (if s.IP ≠ "" then s.IP ++ ":" ++ Nat.repr s.Port.val else dflt) := by
  unfold lastHostPort
  by_cases hs : s.IP = ""
  · simp [List.filter_cons, hs]
  · simp only [List.filter_cons, hs, ne_eq, not_false_eq_true, decide_True, if_true,
      List.getLast?_cons]
    cases (l.filter (fun s => decide (s.IP ≠ ""))).getLast? <;> rfl

/-- A service without an IP at the end leaves the host-port as it was. -/
theorem lastHostPort_concat_blank (l : List ServiceConfig) (s : ServiceConfig) (dflt : String)
    (hs : s.IP = "") : lastHostPort (l ++ [s]) dflt = lastHostPort l dflt := by
  unfold lastHostPort
  simp [List.filter_append, List.filter_cons, hs]

/-- The configurations the loop of `Setup` builds tracers with: the one of the
i-th round carries the overrides of the services of the rounds so far. -/
theorem setupServices_configs (lib : Lib) (Wrap : ZipkinTracer → Tracer)
    (services : List ServiceConfig) :
    ∀ (cfg : Config) (tracers : String → Option Tracer) (i : Nat) (c : Config),
      (tracerConfigs (setupServices lib Wrap services cfg tracers).2)[i]? = some c →
      c.ServiceName = lastServiceName (services.take (i + 1)) cfg.ServiceName ∧
      c.HostPort = lastHostPort (services.take (i + 1)) cfg.HostPort := by
  induction services with
  | nil =>
    intro cfg tracers i c h
    simp [setupServices, tracerConfigs] at h
  | cons s rest ih =>
    intro cfg tracers i c h
    have hname : ((cfg.withServiceName s.Name).withHostPort s.IP s.Port).ServiceName =
        (if s.Name ≠ "" then s.Name else cfg.ServiceName) := by
      unfold Config.withServiceName Config.withHostPort
      by_cases h1 : s.Name = "" <;> by_cases h2 : s.IP = "" <;> simp [h1, h2]
    have hhost : ((cfg.withServiceName s.Name).withHostPort s.IP s.Port).HostPort =
        (if s.IP ≠ "" then s.IP ++ ":" ++ Nat.repr s.Port.val else cfg.HostPort) := by
      unfold Config.withServiceName Config.withHostPort
      by_cases h1 : s.Name = "" <;> by_cases h2 : s.IP = "" <;> simp [h1, h2]
    rw [List.take_succ_cons, lastServiceName_cons, lastHostPort_cons, ← hname, ← hhost]
    unfold setupServices at h
    simp only [] at h
    cases hb : (Config.NewOpenTracingTracer lib Wrap
        ((cfg.withServiceName s.Name).withHostPort s.IP s.Port)).1 with
    | panic =>
      simp only [hb, tracerConfigs, List.filterMap_cons, List.filterMap_nil] at h
      cases i with
      | zero =>
        simp only [List.getElem?_cons_zero, Option.some.injEq] at h
        subst h
        simp [lastServiceName, lastHostPort]
      | succ j => simp at h
    | error err =>
      simp only [hb, tracerConfigs, List.filterMap_cons, List.filterMap_nil] at h
      cases i with
      | zero =>
        simp only [List.getElem?_cons_zero, Option.some.injEq] at h
        subst h
        simp [lastServiceName, lastHostPort]
      | succ j => simp at h
    | ok tracer =>
      simp only [hb, tracerConfigs, List.filterMap_cons] at h
      cases i with
      | zero =>
        simp only [List.getElem?_cons_zero, Option.some.injEq] at h
        subst h
        simp [lastServiceName, lastHostPort]
      | succ j =>
        simp only [List.getElem?_cons_succ] at h
        exact ih _ _ j c h

/-- The loop of `Setup` builds at most one tracer for each service, and exactly
one for each when it runs to its end. -/
theorem setupServices_configs_length (lib : Lib) (Wrap : ZipkinTracer → Tracer)
    (services : List ServiceConfig) :
    ∀ (cfg : Config) (tracers : String → Option Tracer),
      (tracerConfigs (setupServices lib Wrap services cfg tracers).2).length ≤ services.length ∧
      ((∃ t, (setupServices lib Wrap services cfg tracers).1 = .ok t) →
        (tracerConfigs (setupServices lib Wrap services cfg tracers).2).length =
          services.length) := by
  induction services with
  | nil =>
    intro cfg tracers
    simp [setupServices, tracerConfigs]
  | cons s rest ih =>
    intro cfg tracers
    unfold setupServices
    simp only []
    cases hb : (Config.NewOpenTracingTracer lib Wrap
        ((cfg.withServiceName s.Name).withHostPort s.IP s.Port)).1 with
    | panic => simp [tracerConfigs]
    | error err => simp [tracerConfigs]
    | ok tracer =>
      obtain ⟨h₁, h₂⟩ := ih ((cfg.withServiceName s.Name).withHostPort s.IP s.Port)
        (fun name => if name = s.Name then some tracer else tracers name)
      simp only [tracerConfigs, List.filterMap_cons, List.length_cons] at h₁ h₂ ⊢
      exact ⟨Nat.succ_le_succ h₁, fun h => congrArg Nat.succ (h₂ h)⟩

/-- The calls of `NewOpenTracingTracer` that `Setup` makes after decoding: the
first with the defaulted configuration, the others those of its loop. -/
theorem Setup_tracerConfigs (lib : Lib) (Wrap : ZipkinTracer → Tracer) (g : GlobalConfig)
    (cfg : Config) (name : String) :
    ∃ builds : List Config,
      tracerConfigs (zipkinPlugin.Setup lib Wrap g (.ok cfg) name).2 =
        cfg.withDefault g.Server g.LocalIP :: builds ∧
      (builds = [] ∨
        builds = tracerConfigs (setupServices lib Wrap g.Service
          (cfg.withDefault g.Server g.LocalIP) (fun _ => none)).2) ∧
      ((∃ z, (zipkinPlugin.Setup lib Wrap g (.ok cfg) name).1 = .ok z) →
        builds = tracerConfigs (setupServices lib Wrap g.Service
          (cfg.withDefault g.Server g.LocalIP) (fun _ => none)).2 ∧
        ∃ t, (setupServices lib Wrap g.Service
          (cfg.withDefault g.Server g.LocalIP) (fun _ => none)).1 = .ok t) := by
  unfold zipkinPlugin.Setup
  simp only []
  cases hb : (Config.NewOpenTracingTracer lib Wrap (cfg.withDefault g.Server g.LocalIP)).1 with
  | panic => exact ⟨[], by simp [tracerConfigs], Or.inl rfl, by simp⟩
  | error err => exact ⟨[], by simp [tracerConfigs], Or.inl rfl, by simp⟩
  | ok tracer =>
    rcases hl : setupServices lib Wrap g.Service (cfg.withDefault g.Server g.LocalIP)
      (fun _ => none) with ⟨o, evs⟩
    cases o with
    | panic => exact ⟨tracerConfigs evs, by simp [tracerConfigs], Or.inr rfl, by simp⟩
    | error err => exact ⟨tracerConfigs evs, by simp [tracerConfigs], Or.inr rfl, by simp⟩
    | ok tracers =>
      refine ⟨tracerConfigs evs, ?_, Or.inr rfl, fun _ => ⟨rfl, tracers, rfl⟩⟩
      simp [tracerConfigs, List.filterMap_append]

/-- One round of the loop of `Setup` on the configuration. -/
theorem setupRound_eq (cfg : Config) (s : ServiceConfig) :
    (cfg.withServiceName s.Name).withHostPort s.IP s.Port =
      { cfg with
        ServiceName := if s.Name ≠ "" then s.Name else cfg.ServiceName
        HostPort := if s.IP ≠ "" then s.IP ++ ":" ++ Nat.repr s.Port.val else cfg.HostPort } := by
  unfold Config.withServiceName Config.withHostPort
  by_cases h1 : s.Name = "" <;> by_cases h2 : s.IP = "" <;> simp [h1, h2]

/-- The configuration of the first service is the defaulted one after one
round. -/
theorem setupRoundConfig_zero (cfg : Config) (s : ServiceConfig) (rest : List ServiceConfig) :
    setupRoundConfig cfg (s :: rest) 0 = (cfg.withServiceName s.Name).withHostPort s.IP s.Port := by
  rw [setupRound_eq]
  unfold setupRoundConfig
  rw [List.take_succ_cons, lastServiceName_cons, lastHostPort_cons]
  simp [lastServiceName, lastHostPort]

/-- The configuration of a later service is that of the services behind the
first, starting from the configuration after the first round. -/
theorem setupRoundConfig_succ (cfg : Config) (s : ServiceConfig) (rest : List ServiceConfig)
    (i : Nat) :
    setupRoundConfig cfg (s :: rest) (i + 1) =
      setupRoundConfig ((cfg.withServiceName s.Name).withHostPort s.IP s.Port) rest i := by
  rw [setupRound_eq]
  unfold setupRoundConfig
  rw [List.take_succ_cons, lastServiceName_cons, lastHostPort_cons]

/-- Every tracer the loop of `Setup` builds is built from the configuration the
specification gives its service, all fields included. -/
theorem setupServices_configs_eq (lib : Lib) (Wrap : ZipkinTracer → Tracer)
    (services : List ServiceConfig) :
    ∀ (cfg : Config) (tracers : String → Option Tracer) (i : Nat) (c : Config),
      (tracerConfigs (setupServices lib Wrap services cfg tracers).2)[i]? = some c →
      c = setupRoundConfig cfg services i := by
  induction services with
  | nil =>
    intro cfg tracers i c h
    simp [setupServices, tracerConfigs] at h
  | cons s rest ih =>
    intro cfg tracers i c h
    unfold setupServices at h
    simp only [] at h
    cases hb : (Config.NewOpenTracingTracer lib Wrap
        ((cfg.withServiceName s.Name).withHostPort s.IP s.Port)).1 with
    | panic =>
      simp only [hb, tracerConfigs, List.filterMap_cons, List.filterMap_nil] at h
      cases i with
      | zero =>
        simp only [List.getElem?_cons_zero, Option.some.injEq] at h
        rw [setupRoundConfig_zero, h]
      | succ j => simp at h
    | error err =>
      simp only [hb, tracerConfigs, List.filterMap_cons, List.filterMap_nil] at h
      cases i with
      | zero =>
        simp only [List.getElem?_cons_zero, Option.some.injEq] at h
        rw [setupRoundConfig_zero, h]
      | succ j => simp at h
    | ok tracer =>
      simp only [hb, tracerConfigs, List.filterMap_cons] at h
      cases i with
      | zero =>
        simp only [List.getElem?_cons_zero, Option.some.injEq] at h
        rw [setupRoundConfig_zero, h]
      | succ j =>
        simp only [List.getElem?_cons_succ] at h
        rw [setupRoundConfig_succ]
        exact ih _ _ j c h

/-- The loop of `Setup` reaches the i-th service when the tracers of the
services before it were built, and then calls `NewOpenTracingTracer` with the
configuration the specification gives that service. -/
theorem setupServices_reaches (lib : Lib) (Wrap : ZipkinTracer → Tracer)
    (services : List ServiceConfig) :
    ∀ (cfg : Config) (tracers : String → Option Tracer) (i : Nat),
      i < services.length →
      (∀ j, j < i → roundBuilds lib Wrap cfg services j) →
      (tracerConfigs (setupServices lib Wrap services cfg tracers).2)[i]? =
        some (setupRoundConfig cfg services i) := by
  induction services with
  | nil =>
    intro cfg tracers i hi
    simp at hi
  | cons s rest ih =>
    intro cfg tracers i hi hprev
    unfold setupServices
    simp only []
    cases i with
    | zero =>
      rw [setupRoundConfig_zero]
      cases hb : (Config.NewOpenTracingTracer lib Wrap
          ((cfg.withServiceName s.Name).withHostPort s.IP s.Port)).1 <;>
        simp [tracerConfigs]
    | succ k =>
      obtain ⟨t, ht⟩ := hprev 0 (Nat.succ_pos k)
      unfold roundBuilds at hprev
      rw [setupRoundConfig_zero] at ht
      simp only [ht, tracerConfigs, List.filterMap_cons, List.getElem?_cons_succ]
      rw [setupRoundConfig_succ]
      have hk : k < rest.length := by simpa using hi
      refine ih _ _ k hk ?_
      intro j hj
      have := hprev (j + 1) (Nat.succ_lt_succ hj)
      rw [setupRoundConfig_succ] at this
      exact this

/-- The loop of `Setup` stops at the first service whose tracer cannot be
built. -/
theorem setupServices_stops (lib : Lib) (Wrap : ZipkinTracer → Tracer)
    (services : List ServiceConfig) :
    ∀ (cfg : Config) (tracers : String → Option Tracer) (j : Nat),
      j < services.length → ¬ roundBuilds lib Wrap cfg services j →
      (tracerConfigs (setupServices lib Wrap services cfg tracers).2).length ≤ j + 1 ∧
      ¬ ∃ t, (setupServices lib Wrap services cfg tracers).1 = .ok t := by
  induction services with
  | nil =>
    intro cfg tracers j hj
    simp at hj
  | cons s rest ih =>
    intro cfg tracers j hj hfail
    unfold setupServices
    simp only []
    cases hb : (Config.NewOpenTracingTracer lib Wrap
        ((cfg.withServiceName s.Name).withHostPort s.IP s.Port)).1 with
    | panic => simp [tracerConfigs]
    | error err => simp [tracerConfigs]
    | ok tracer =>
      cases j with
      | zero =>
        exfalso
        apply hfail
        unfold roundBuilds
        rw [setupRoundConfig_zero]
        exact ⟨tracer, hb⟩
      | succ k =>
        have hk : k < rest.length := by simpa using hj
        have hfail' : ¬ roundBuilds lib Wrap
            ((cfg.withServiceName s.Name).withHostPort s.IP s.Port) rest k := by
          unfold roundBuilds at hfail ⊢
          rw [setupRoundConfig_succ] at hfail
          exact hfail
        obtain ⟨h₁, h₂⟩ := ih ((cfg.withServiceName s.Name).withHostPort s.IP s.Port)
          (fun name => if name = s.Name then some tracer else tracers name) k hk hfail'
        simp only [tracerConfigs, List.filterMap_cons, List.length_cons] at h₁ ⊢
        exact ⟨Nat.succ_le_succ h₁, h₂⟩

/-- The loop of `Setup` runs to its end when the tracer of every service can be
built. -/
theorem setupServices_ok (lib : Lib) (Wrap : ZipkinTracer → Tracer)
    (services : List ServiceConfig) :
    ∀ (cfg : Config) (tracers : String → Option Tracer),
      (∀ j, j < services.length → roundBuilds lib Wrap cfg services j) →
      ∃ t, (setupServices lib Wrap services cfg tracers).1 = .ok t := by
  induction services with
  | nil =>
    intro cfg tracers _
    exact ⟨tracers, rfl⟩
  | cons s rest ih =>
    intro cfg tracers hall
    obtain ⟨t, ht⟩ := hall 0 (by simp)
    rw [setupRoundConfig_zero] at ht
    unfold setupServices
    simp only [ht]
    refine ih _ _ ?_
    intro j hj
    have := hall (j + 1) (by simpa using hj)
    unfold roundBuilds at this ⊢
    rw [setupRoundConfig_succ] at this
    exact this

/-- What `Setup` does after decoding, by the outcome of the first tracer: when
the tracer of the defaulted configuration is built the loop runs, otherwise
nothing more is built and `Setup` does not return nil. -/
theorem Setup_by_default_tracer (lib : Lib) (Wrap : ZipkinTracer → Tracer) (g : GlobalConfig)
    (cfg : Config) (name : String) :
    ((∃ t, ((cfg.withDefault g.Server g.LocalIP).NewOpenTracingTracer lib Wrap).1 = .ok t) →
      tracerConfigs (zipkinPlugin.Setup lib Wrap g (.ok cfg) name).2 =
        cfg.withDefault g.Server g.LocalIP ::
          tracerConfigs (setupServices lib Wrap g.Service
            (cfg.withDefault g.Server g.LocalIP) (fun _ => none)).2 ∧
      ((∃ z, (zipkinPlugin.Setup lib Wrap g (.ok cfg) name).1 = .ok z) ↔
        ∃ t, (setupServices lib Wrap g.Service
          (cfg.withDefault g.Server g.LocalIP) (fun _ => none)).1 = .ok t)) ∧
    ((¬ ∃ t, ((cfg.withDefault g.Server g.LocalIP).NewOpenTracingTracer lib Wrap).1 = .ok t) →
      tracerConfigs (zipkinPlugin.Setup lib Wrap g (.ok cfg) name).2 =
        [cfg.withDefault g.Server g.LocalIP] ∧
      ¬ ∃ z, (zipkinPlugin.Setup lib Wrap g (.ok cfg) name).1 = .ok z) := by
  unfold zipkinPlugin.Setup
  simp only []
  cases hb : (Config.NewOpenTracingTracer lib Wrap (cfg.withDefault g.Server g.LocalIP)).1 with
  | panic => simp [tracerConfigs]
  | error err => simp [tracerConfigs]
  | ok tracer =>
    rcases hl : setupServices lib Wrap g.Service (cfg.withDefault g.Server g.LocalIP)
      (fun _ => none) with ⟨o, evs⟩
    cases o <;> simp [tracerConfigs, List.filterMap_append]

/-- C14: `Setup` applies the per-service overrides cumulatively to one shared
configuration, in declaration order.  After the tracer built from the
defaulted configuration, the loop reaches the i-th declared service whenever
the tracers before it were built, and builds its tracer from the defaulted
configuration with, as service name, the name of the last service among the
first i with a non-empty name (the defaulted name if there is none) and, as
host-port, ip:port of the last service among the first i with a non-empty IP
(the defaulted host-port if there is none); these values depend on the first i
services only; a service with a blank IP is built with the host-port of the
service before it; the loop stops at the first tracer that cannot be built;
and `Setup` returns nil exactly when the default tracer and the tracer of every
service were built. -/
theorem C14_overrides_accumulate (lib : Lib) (Wrap : ZipkinTracer → Tracer) (g : GlobalConfig)
    (cfg : Config) (name : String) :
    ∃ builds : List Config,
      tracerConfigs (zipkinPlugin.Setup lib Wrap g (.ok cfg) name).2 =
        cfg.withDefault g.Server g.LocalIP :: builds ∧
      builds.length ≤ g.Service.length ∧
      ((∃ z, (zipkinPlugin.Setup lib Wrap g (.ok cfg) name).1 = .ok z) →
        builds.length = g.Service.length) ∧
      (∀ (i : Nat) (c : Config), builds[i]? = some c →
        c.ServiceName = lastServiceName (g.Service.take (i + 1))
          (cfg.withDefault g.Server g.LocalIP).ServiceName ∧
        c.HostPort = lastHostPort (g.Service.take (i + 1))
          (cfg.withDefault g.Server g.LocalIP).HostPort) ∧
      (∀ (i : Nat) (c c' : Config) (s : ServiceConfig),
        builds[i]? = some c → builds[i + 1]? = some c' → g.Service[i + 1]? = some s →
        s.IP = "" → c'.HostPort = c.HostPort) ∧
      (∀ (i : Nat) (c : Config), builds[i]? = some c →
        c = setupRoundConfig (cfg.withDefault g.Server g.LocalIP) g.Service i) ∧
      ((∃ t, ((cfg.withDefault g.Server g.LocalIP).NewOpenTracingTracer lib Wrap).1 = .ok t) →
        ∀ i, i < g.Service.length →
          (∀ j, j < i →
            roundBuilds lib Wrap (cfg.withDefault g.Server g.LocalIP) g.Service j) →
          builds[i]? = some (setupRoundConfig (cfg.withDefault g.Server g.LocalIP) g.Service i)) ∧
      ((¬ ∃ t, ((cfg.withDefault g.Server g.LocalIP).NewOpenTracingTracer lib Wrap).1 = .ok t) →
        builds = []) ∧
      (∀ j, j < g.Service.length →
        ¬ roundBuilds lib Wrap (cfg.withDefault g.Server g.LocalIP) g.Service j →
        builds.length ≤ j + 1) ∧
      ((∃ z, (zipkinPlugin.Setup lib Wrap g (.ok cfg) name).1 = .ok z) ↔
        (∃ t, ((cfg.withDefault g.Server g.LocalIP).NewOpenTracingTracer lib Wrap).1 = .ok t) ∧
        ∀ j, j < g.Service.length →
          roundBuilds lib Wrap (cfg.withDefault g.Server g.LocalIP) g.Service j) := by
  obtain ⟨builds, hev, hb, hok⟩ := Setup_tracerConfigs lib Wrap g cfg name
  obtain ⟨hdef, hnodef⟩ := Setup_by_default_tracer lib Wrap g cfg name
  have hlen := setupServices_configs_length lib Wrap g.Service
    (cfg.withDefault g.Server g.LocalIP) (fun _ => none)
  have hcfg : ∀ (i : Nat) (c : Config), builds[i]? = some c →
      c.ServiceName = lastServiceName (g.Service.take (i + 1))
        (cfg.withDefault g.Server g.LocalIP).ServiceName ∧
      c.HostPort = lastHostPort (g.Service.take (i + 1))
        (cfg.withDefault g.Server g.LocalIP).HostPort := by
    intro i c hc
    rcases hb with rfl | rfl
    · simp at hc
    · exact setupServices_configs lib Wrap g.Service _ _ i c hc
  have hloop : (∃ t, ((cfg.withDefault g.Server g.LocalIP).NewOpenTracingTracer lib Wrap).1 =
      .ok t) → builds = tracerConfigs (setupServices lib Wrap g.Service
        (cfg.withDefault g.Server g.LocalIP) (fun _ => none)).2 := by
    intro hd
    have h := (hdef hd).1
    rw [hev] at h
    exact List.tail_eq_of_cons_eq h
  have hempty : (¬ ∃ t, ((cfg.withDefault g.Server g.LocalIP).NewOpenTracingTracer lib Wrap).1 =
      .ok t) → builds = [] := by
    intro hd
    have h := (hnodef hd).1
    rw [hev] at h
    exact List.tail_eq_of_cons_eq h
  refine ⟨builds, hev, ?_, ?_, hcfg, ?_, ?_, ?_, hempty, ?_, ?_⟩
  · rcases hb with rfl | rfl
    · simp
    · exact hlen.1
  · intro h
    obtain ⟨rfl, ht⟩ := hok h
    exact hlen.2 ht
  · intro i c c' s hc hc' hs hip
    rw [(hcfg (i + 1) c' hc').2, (hcfg i c hc).2, List.take_succ, hs]
    exact lastHostPort_concat_blank _ s _ hip
  · intro i c hc
    rcases hb with rfl | rfl
    · simp at hc
    · exact setupServices_configs_eq lib Wrap g.Service _ _ i c hc
  · intro hd i hi hprev
    rw [hloop hd]
    exact setupServices_reaches lib Wrap g.Service _ _ i hi hprev
  · intro j hj hfail
    by_cases hd : ∃ t, ((cfg.withDefault g.Server g.LocalIP).NewOpenTracingTracer lib Wrap).1 =
        .ok t
    · rw [hloop hd]
      exact (setupServices_stops lib Wrap g.Service _ _ j hj hfail).1
    · rw [hempty hd]
      simp
  · constructor
    · intro h
      by_cases hd : ∃ t, ((cfg.withDefault g.Server g.LocalIP).NewOpenTracingTracer lib Wrap).1 =
          .ok t
      · refine ⟨hd, fun j hj => ?_⟩
        by_contra hfail
        exact (setupServices_stops lib Wrap g.Service _ _ j hj hfail).2 ((hdef hd).2.mp h)
      · exact absurd h (hnodef hd).2
    · rintro ⟨hd, hall⟩
      exact (hdef hd).2.mpr (setupServices_ok lib Wrap g.Service _ _ hall)

/-- C14 at a host with three services, the second without an IP and the third
without a name: the configurations the four tracers are built with; the third
service is reached because the tracers before it were built. -/
theorem C14_overrides_accumulate_witness :
    (tracerConfigs
        (zipkinPlugin.Setup sampleLib sampleWrap sampleGlobalConfig (.ok normalConfig)
          "zipkin").2).map (fun c => (c.ServiceName, c.HostPort)) =
      [("app.server", "10.0.0.9"), ("svcA", "10.0.0.1:8000"), ("svcB", "10.0.0.1:8000"),
       ("svcB", "10.0.0.3:7000")] ∧
    ∃ builds : List Config,
      tracerConfigs
        (zipkinPlugin.Setup sampleLib sampleWrap sampleGlobalConfig (.ok normalConfig)
          "zipkin").2 =
        normalConfig.withDefault sampleGlobalConfig.Server sampleGlobalConfig.LocalIP ::
          builds ∧
      builds.length ≤ sampleGlobalConfig.Service.length ∧
      (∀ (i : Nat) (c : Config), builds[i]? = some c →
        c.ServiceName = lastServiceName (sampleGlobalConfig.Service.take (i + 1))
          (normalConfig.withDefault sampleGlobalConfig.Server
            sampleGlobalConfig.LocalIP).ServiceName ∧
        c.HostPort = lastHostPort (sampleGlobalConfig.Service.take (i + 1))
          (normalConfig.withDefault sampleGlobalConfig.Server
            sampleGlobalConfig.LocalIP).HostPort) ∧
      builds[2]? = some (setupRoundConfig
        (normalConfig.withDefault sampleGlobalConfig.Server sampleGlobalConfig.LocalIP)
        sampleGlobalConfig.Service 2) := by
  refine ⟨by decide, ?_⟩
  obtain ⟨builds, h₁, h₂, _, h₄, _, _, h₇, _⟩ :=
    C14_overrides_accumulate sampleLib sampleWrap sampleGlobalConfig normalConfig "zipkin"
  refine ⟨builds, h₁, h₂, h₄, h₇ ⟨⟨0⟩, by decide⟩ 2 (by decide) ?_⟩
  intro j hj
  interval_cases j
  · exact ⟨⟨0⟩, by decide⟩
  · exact ⟨⟨0⟩, by decide⟩

end Zipkin
